import Mathlib

/-!
# justice-go-common-email: a shallow embedding

The email senders of the repository, their two caches and the provider
clients, written as pure functions.  Everything outside the process is an
explicit argument: the answers of the network (`Net`), the readings of the
clock, the environment variables, and the standard-library functions whose
result the code only passes on (`Lib`).  Every call returns, next to its Go
result, the new state of the caches and the list of effects it performed
(`Event`), so that "issues a remote fetch" and "dispatches to the provider"
are statements about that list.
-/

set_option autoImplicit false

namespace EmailSender

/-! ## Go values -/

/-- Error values of the program.  The four named constructors are the
package-level error variables, compared by identity in the source
(`err == constant.ErrNotFound`); `errorsNew msg` is a fresh value made by
`errors.New(msg)` or `fmt.Errorf`, whose `Error()` text is `msg`; `library msg`
is an error handed back by a library call (net/http, io, encoding/json,
net/smtp) with text `msg`. -/
inductive GoError where
  | ErrNotFound
  | ErrConfigurationNotFound
  | ErrConfigurationNotValid
  | ErrSenderPlatformNotExist
  | errorsNew (msg : String)
  | library (msg : String)
  deriving DecidableEq, Repr

/-- Outcome of running Go code that may stop in a run-time panic. -/
inductive Exec (α : Type) where
  | done (a : α)
  | panicked (reason : String)
  deriving Repr

/-- JSON documents, with object members in the order they are written. -/
inductive JSON where
  | null
  | bool (b : Bool)
  | num (n : Int)
  | str (s : String)
  | arr (items : List JSON)
  | obj (members : List (String × JSON))

/-- The member of an object under a key (the first, if the key repeats);
`none` when there is none or the document is not an object. -/
def JSON.member : JSON → String → Option JSON
  | JSON.obj members, key => members.lookup key
  | _, _ => none

/-- Values of type `interface{}` as the program sees them: `nil`, a string,
an int, a bool, or a value of any other dynamic type.  Of the last kind the
program only ever asks for its JSON encoding (`json`, the error text when
`json.Marshal` rejects the value) and its `%v` rendering (`text`). -/
inductive Value where
  | nil
  | str (s : String)
  | int (n : Int)
  | bool (b : Bool)
  | other (json : Except String JSON) (text : String)

/-- A Go `map[string]β`: its entries, one per key. -/
abbrev GoMap (β : Type) := List (String × β)

/-- Map read `m[k]` with the comma-ok flag: `none` when the key is absent. -/
def GoMap.get {β : Type} : GoMap β → String → Option β
  | [], _ => none
  | (k', v) :: rest, k => if k' = k then some v else GoMap.get rest k

/-- Map write `m[k] = v`: replaces the entry of `k`, or adds one. -/
def GoMap.set {β : Type} : GoMap β → String → β → GoMap β
  | [], k, v => [(k, v)]
  | (k', v') :: rest, k, v =>
    if k' = k then (k, v) :: rest else (k', v') :: GoMap.set rest k v

/-- Two's-complement wrap of an `int64` result. -/
def wrapInt64 (x : Int) : Int :=
  (x + 9223372036854775808) % 18446744073709551616 - 9223372036854775808

/-! ## The expiring cache (github.com/patrickmn/go-cache)

The library the two caches are built from, as its `New`, `Get` and `Set`
behave.  Instants are `time.Now().UnixNano()` readings, passed in by the
caller of each operation.  The janitor started by `New` only deletes entries
that `Get` already reports as absent, so it is not part of the state. -/

/-- A cache entry: the stored object and the instant after which it is
expired (`0`: it never expires). -/
structure Item (α : Type) where
  Object : α
  Expiration : Int

/-- The cache: its default lifetime in nanoseconds and its entries. -/
structure Cache (α : Type) where
  defaultExpiration : Int
  items : GoMap (Item α)

/-- `cache.New(defaultExpiration, cleanupInterval)`: an empty cache; a default
lifetime of `0` is stored as `-1` (`NoExpiration`). -/
def Cache.New {α : Type} (defaultExpiration _cleanupInterval : Int) : Cache α :=
  { defaultExpiration := if defaultExpiration = 0 then -1 else defaultExpiration
    items := [] }

/-- `c.Get(k)` read at instant `now`: the object, unless the key is absent or
its entry has a positive expiration that `now` is past. -/
def Cache.Get {α : Type} (c : Cache α) (now : Int) (k : String) : Option α :=
  match c.items.get k with
  | none => none
  | some item =>
    if 0 < item.Expiration then
      if item.Expiration < now then none else some item.Object
    else some item.Object

/-- `c.Set(k, x, d)` at instant `now`: `d = 0` (`DefaultExpiration`) stands for
the cache's default lifetime; a positive lifetime gives the expiration
`now + d`, any other gives `0`. -/
def Cache.Set {α : Type} (c : Cache α) (now : Int) (k : String) (x : α) (d : Int) : Cache α :=
  let d := if d = 0 then c.defaultExpiration else d
  let e := if 0 < d then wrapInt64 (now + d) else 0
  { c with items := c.items.set k { Object := x, Expiration := e } }

/-! ## configservice/model.go -/

structure ErrorEntity where
  ErrorCode : Int
  ErrorMessage : String
  deriving DecidableEq, Repr

structure EmailTemplate where
  TemplateName : String
  TemplateID : String
  deriving DecidableEq, Repr

/-- The sender configuration of one tenant.  `EmailTemplates` is the slice
`[]*EmailTemplate`, element by element: `some t` for a pointer to the template
`t`, `none` for a nil pointer (what `json.Unmarshal` makes of a `null` in the
`emailTemplates` array). -/
structure EmailSenderConfiguration where
  Namespace : String
  FromAddress : String
  FromName : String
  APIKey : String
  IsDomainAuthenticated : Bool
  EmailTemplates : List (Option EmailTemplate)
  deriving DecidableEq, Repr

/-- The loop of `GetEmailTemplate` over the slice: it reads `t.TemplateName`
of each element in turn, which panics on a nil pointer, and returns the first
template with the given name, or nil (`none`) at the end of the slice. -/
def EmailSenderConfiguration.rangeEmailTemplates (name : String) :
    List (Option EmailTemplate) → Exec (Option EmailTemplate)
  | [] => Exec.done none
  | none :: _ => Exec.panicked "runtime error: invalid memory address or nil pointer dereference"
  | some t :: rest =>
    if t.TemplateName = name then Exec.done (some t)
    else EmailSenderConfiguration.rangeEmailTemplates name rest

/-- `GetEmailTemplate`: the first template of the slice with the given name,
`none` for the nil result; a panic when the loop meets a nil element first. -/
def EmailSenderConfiguration.GetEmailTemplate (d : EmailSenderConfiguration) (name : String) :
    Exec (Option EmailTemplate) :=
  EmailSenderConfiguration.rangeEmailTemplates name d.EmailTemplates

/-! ## Declarations the sources use from outside -/

/-- The constants of the packages `constant` and `mandrill` that the code
reads and whose values are declared in files that are not part of the
sources at hand.  They are parameters of the model. -/
structure Constants where
  CopyrightYearTemplateKey : String
  LanguageTagTemplateKey : String
  mandrillPlatformID : String

/-- An HTTP request as the program builds it. -/
structure HTTPRequest where
  method : String
  url : String
  headers : List (String × String)
  body : Option JSON

/-- What becomes of one HTTP exchange: `http.NewRequestWithContext` rejects
the request (nothing is sent); `httpClient.Do` fails (connection, timeout,
cancellation); or a response arrives, with its status code and what
`ioutil.ReadAll` makes of its body (the text, or a read error). -/
inductive HTTPOutcome where
  | invalidRequest (err : String)
  | transportError (err : String)
  | response (status : Nat) (body : Except String String)

/-- One submission handed to `smtp.SendMail`: the server address, the
`smtp.PlainAuth` credentials, the envelope and the message text. -/
structure SMTPSubmission where
  addr : String
  username : String
  password : String
  host : String
  sender : String
  recipients : List String
  msg : String

/-- The network: the outcome of each HTTP request the program may build, and
the error text (if any) `smtp.SendMail` answers a submission with. -/
structure Net where
  http : HTTPRequest → HTTPOutcome
  smtp : SMTPSubmission → Option String

/-- Standard-library functions whose result the code passes on unexamined:
`json.Unmarshal` into the two structs of `configservice/model.go`
(`Except.error` carries the text of its error), the text `json.Marshal` writes
for a document, `mail.Address.String()` of a name and an address, `strconv.Atoi` (`none`
when it fails), and the order in which `range` walks a map. -/
structure Lib where
  unmarshalErrorEntity : String → Except String ErrorEntity
  unmarshalEmailSenderConfiguration : String → Except String EmailSenderConfiguration
  jsonText : JSON → String
  addressString : String → String → String
  Atoi : String → Option Int
  rangeOrder : GoMap Value → GoMap Value

/-- The request context: the value stored under `constant.ServiceAccessToken`
(`Value.nil` when there is none). -/
structure Context where
  ServiceAccessToken : Value

/-! ## object/object.go -/

/-- `EmailData`.  `XMCMergeVars` is `none` for the nil map; a nil slice and an
empty one are both the empty list (the code only asks for their length and
ranges over them). -/
structure EmailData where
  Namespace : String
  From : String
  FromName : String
  To : String
  Subject : String
  ReplyTo : String
  XMCTemplate : String
  XMCMergeVars : Option (GoMap Value)
  Categories : List String
  CarbonCopy : List String

/-- `SetTemplateAdditionalData`, with `year` the reading `time.Now().Year()`.
The type assertion `language.(string)` panics on a value that is neither nil
nor a string. -/
def EmailData.SetTemplateAdditionalData (K : Constants) (year : Int) (d : EmailData) :
    Exec EmailData :=
  let m0 : GoMap Value :=
    match d.XMCMergeVars with
    | none => []
    | some m => m
  let m1 : GoMap Value :=
    match m0.get K.CopyrightYearTemplateKey with
    | some _ => m0
    | none => m0.set K.CopyrightYearTemplateKey (Value.int year)
  match (m1.get K.LanguageTagTemplateKey).getD Value.nil with
  | Value.nil => Exec.done { d with XMCMergeVars := some m1 }
  | Value.str language =>
    if language ≠ "" then
      Exec.done { d with XMCMergeVars := some (m1.set language (Value.bool true)) }
    else
      Exec.done { d with XMCMergeVars := some m1 }
  | _ => Exec.panicked "interface conversion: interface {} is not string"

/-! ## platform: the provider clients -/

/-- `sendgrid.MailSender`. -/
structure sendgrid.MailSender where
  Host : String
  APIKey : String
  DefaultEmailCategories : String

/-- `mandrill.MailSender` (the fields its constructor sets). -/
structure mandrill.MailSender where
  Host : String
  APIKey : String

/-- `mandrill.SMTPMailSender` (the fields its constructor sets). -/
structure mandrill.SMTPMailSender where
  Host : String
  Port : Int
  Username : String
  Password : String

/-- A non-nil `platform.SenderPlatform`: one of the three clients of the
repository. -/
inductive SenderPlatform where
  | sendgrid (c : sendgrid.MailSender)
  | mandrill (c : mandrill.MailSender)
  | mandrillSMTP (c : mandrill.SMTPMailSender)

/-- Effects a call performs, in the order it performs them. -/
inductive Event where
  | fetchConfig (tenant : String)
  | httpDo (req : HTTPRequest)
  | send (client : SenderPlatform) (emailData : EmailData)
  | smtpSendMail (sub : SMTPSubmission)

/-- Whether the event is a call of `fetchEmailSenderConfiguration`. -/
def Event.isFetch : Event → Bool
  | Event.fetchConfig _ => true
  | _ => false

/-- Whether the event is work of a provider client: a call of `Send`, an
SMTP submission, or an HTTP request other than a GET. -/
def Event.isProvider : Event → Bool
  | Event.send _ _ => true
  | Event.smtpSendMail _ => true
  | Event.httpDo req => req.method != "GET"
  | Event.fetchConfig _ => false

/-- Number of remote fetches in a list of effects. -/
def fetchCount (trace : List Event) : Nat := trace.countP Event.isFetch

/-- The messages handed to `Send` of a provider client, with the client. -/
def dispatched : List Event → List (SenderPlatform × EmailData)
  | [] => []
  | Event.send c d :: rest => (c, d) :: dispatched rest
  | _ :: rest => dispatched rest

/-! ## configservice/configservice.go -/

/-- `APIProxy`: the host of the configuration service and the cache of
configurations, keyed by namespace. -/
structure APIProxy where
  Host : String
  Cache : Cache EmailSenderConfiguration

/-- `NewConfigServiceProxy` (its error result is always nil).  The item
lifetime is `cacheExpireInSeconds` seconds in nanoseconds, the sweep interval
twice that, both computed in `int64`. -/
def NewConfigServiceProxy (host : String) (cacheExpireInSeconds : Int) : APIProxy :=
  let cacheExpireDuration := cacheExpireInSeconds
  { Host := host
    Cache := Cache.New (wrapInt64 (cacheExpireDuration * 1000000000))
      (wrapInt64 (wrapInt64 (cacheExpireDuration * 2) * 1000000000)) }

/-- `getAccessTokenFromContext`: the token string of the context; an error
when it is missing or empty; a panic (failed type assertion) when the value
stored is not a string. -/
def getAccessTokenFromContext (ctx : Context) : Exec (Except GoError String) :=
  match ctx.ServiceAccessToken with
  | Value.nil =>
    Exec.done (Except.error (GoError.errorsNew "no access token specified inside context"))
  | Value.str accessToken =>
    if accessToken = "" then
      Exec.done (Except.error (GoError.errorsNew "no access token specified inside context"))
    else Exec.done (Except.ok accessToken)
  | _ => Exec.panicked "interface conversion: interface {} is not string"

/-- The URL `fmt.Sprintf(getEmailSenderConfigurationPath, host, namespace)`. -/
def getEmailSenderConfigurationPath (host tenant : String) : String :=
  host ++ "/v1/admin/namespaces/" ++ tenant ++ "/emailsender?includeEmailTemplates=true"

/-- Result of `fetchEmailSenderConfiguration`: the configuration or the
error, and the requests sent. -/
structure FetchRun where
  outcome : Exec (Except GoError EmailSenderConfiguration)
  trace : List Event

/-- `fetchEmailSenderConfiguration`: one GET to the configuration service
with the bearer token of the context, and the reading of its answer. -/
def APIProxy.fetchEmailSenderConfiguration (lib : Lib) (net : Net) (e : APIProxy)
    (ctx : Context) (tenant : String) : FetchRun :=
  match getAccessTokenFromContext ctx with
  | Exec.panicked r => { outcome := Exec.panicked r, trace := [] }
  | Exec.done (Except.error err) => { outcome := Exec.done (Except.error err), trace := [] }
  | Exec.done (Except.ok accessToken) =>
    let req : HTTPRequest :=
      { method := "GET"
        url := getEmailSenderConfigurationPath e.Host tenant
        headers := [("Authorization", "Bearer " ++ accessToken)]
        body := none }
    match net.http req with
    | HTTPOutcome.invalidRequest err =>
      { outcome := Exec.done (Except.error (GoError.library err)), trace := [] }
    | HTTPOutcome.transportError err =>
      { outcome := Exec.done (Except.error (GoError.library err)), trace := [Event.httpDo req] }
    | HTTPOutcome.response _ (Except.error err) =>
      { outcome := Exec.done
          (Except.error (GoError.errorsNew ("unable to read response body: " ++ err)))
        trace := [Event.httpDo req] }
    | HTTPOutcome.response status (Except.ok bodyBytes) =>
      let result : Except GoError EmailSenderConfiguration :=
        if status ≠ 200 then
          if status = 404 then
            match lib.unmarshalErrorEntity bodyBytes with
            | Except.error _ => Except.error (GoError.errorsNew bodyBytes)
            | Except.ok errorEntity =>
              if errorEntity.ErrorCode = 20008 then Except.error GoError.ErrNotFound
              else Except.error (GoError.errorsNew bodyBytes)
          else Except.error (GoError.errorsNew bodyBytes)
        else
          match lib.unmarshalEmailSenderConfiguration bodyBytes with
          | Except.error err =>
            Except.error
              (GoError.errorsNew ("unable to unmarshal json EmailSenderConfiguration: " ++ err))
          | Except.ok emailSenderConfig => Except.ok emailSenderConfig
      { outcome := Exec.done result, trace := [Event.httpDo req] }

/-- Result of `GetEmailSenderConfiguration`: the pair the Go function returns
(`none` for nil), the proxy afterwards, and the effects. -/
structure GetRun where
  outcome : Exec (Option EmailSenderConfiguration × Option GoError)
  proxy : APIProxy
  trace : List Event

/-- `GetEmailSenderConfiguration`.  `tGet` is the clock reading of
`Cache.Get`, `tSet` the reading of `Cache.Set` (taken only when a fetched
configuration is stored). -/
def APIProxy.GetEmailSenderConfiguration (lib : Lib) (net : Net) (tGet tSet : Int)
    (e : APIProxy) (ctx : Context) (tenant : String) : GetRun :=
  match e.Cache.Get tGet tenant with
  | some result => { outcome := Exec.done (some result, none), proxy := e, trace := [] }
  | none =>
    let f := e.fetchEmailSenderConfiguration lib net ctx tenant
    match f.outcome with
    | Exec.panicked r =>
      { outcome := Exec.panicked r, proxy := e, trace := Event.fetchConfig tenant :: f.trace }
    | Exec.done (Except.error err) =>
      if err = GoError.ErrNotFound then
        { outcome := Exec.done (none, none), proxy := e
          trace := Event.fetchConfig tenant :: f.trace }
      else
        { outcome := Exec.done (none, some err), proxy := e
          trace := Event.fetchConfig tenant :: f.trace }
    | Exec.done (Except.ok emailSender) =>
      { outcome := Exec.done (some emailSender, none)
        proxy := { e with Cache := e.Cache.Set tSet tenant emailSender 0 }
        trace := Event.fetchConfig tenant :: f.trace }

/-! ## encoding/json on the values the clients marshal -/

/-- JSON encoding of an `interface{}` value. -/
def Value.toJSON : Value → Except String JSON
  | Value.nil => Except.ok JSON.null
  | Value.str s => Except.ok (JSON.str s)
  | Value.int n => Except.ok (JSON.num n)
  | Value.bool b => Except.ok (JSON.bool b)
  | Value.other json _ => json

/-- The `%v` rendering of an `interface{}` value. -/
def Value.format : Value → String
  | Value.nil => "<nil>"
  | Value.str s => s
  | Value.int n => toString n
  | Value.bool b => if b then "true" else "false"
  | Value.other _ text => text

/-- Members of a map in the order `json.Marshal` writes them: by key. -/
def sortedByKey (m : GoMap Value) : GoMap Value :=
  m.insertionSort (fun a b => a.1 ≤ b.1)

/-- Encodes the entries of a map, stopping at the first value that
`json.Marshal` rejects. -/
def marshalMembers : GoMap Value → Except String (List (String × JSON))
  | [] => Except.ok []
  | (k, v) :: rest =>
    match v.toJSON with
    | Except.error err => Except.error err
    | Except.ok j =>
      match marshalMembers rest with
      | Except.error err => Except.error err
      | Except.ok js => Except.ok ((k, j) :: js)

/-- `json.Marshal` of a `map[string]interface{}`: `null` for the nil map, else
the object of its entries, sorted by key. -/
def marshalMergeVars : Option (GoMap Value) → Except String JSON
  | none => Except.ok JSON.null
  | some m =>
    match marshalMembers (sortedByKey m) with
    | Except.error err => Except.error err
    | Except.ok members => Except.ok (JSON.obj members)

/-- Result of `Send` on a provider client: the error it returns (`none` for
nil) and the traffic it caused. -/
structure SendRun where
  result : Option GoError
  trace : List Event

/-! ## platform/sendgrid/sendgrid.go -/

namespace sendgrid

def PlatformID : String := "sendgrid"

def apiHost : String := "https://api.sendgrid.com"

def sendEmailPath : String := "/v3/mail/send"

structure mail where
  Email : String
  Name : String

/-- A personalization block; `none` is the nil slice or nil map. -/
structure personalization where
  To : Option (List mail)
  CC : Option (List mail)
  DynamicTemplateData : Option (GoMap Value)

/-- The payload; `ReplyTo` is `none` for the nil pointer.  `Attachments` is
never set by the code and stays nil. -/
structure emailPayload where
  Subject : String
  From : mail
  ReplyTo : Option mail
  Personalizations : List personalization
  TemplateID : String
  Categories : List String

/-- `NewSendGridClient`. -/
def NewSendGridClient (apiKey emailCategories : String) : SenderPlatform :=
  SenderPlatform.sendgrid
    { Host := apiHost, APIKey := apiKey, DefaultEmailCategories := emailCategories }

/-- The payload that `Send` builds from the message (the first part of the
function, up to `json.Marshal`). -/
def payloadOf (e : MailSender) (emailData : EmailData) : emailPayload :=
  let emailCategories : List String :=
    if e.DefaultEmailCategories ≠ "" then e.DefaultEmailCategories.splitOn "," else []
  let emailCategories : List String :=
    if 0 < emailData.Categories.length then emailCategories ++ emailData.Categories
    else emailCategories
  let personalizations : List personalization :=
    [{ To := some [{ Email := emailData.To, Name := "" }]
       CC := none
       DynamicTemplateData := emailData.XMCMergeVars }]
  let CCs : List mail :=
    emailData.CarbonCopy.foldl (fun CCs ccEmailData => CCs ++ [{ Email := ccEmailData, Name := "" }]) []
  let personalizations := personalizations ++ [{ To := none, CC := some CCs, DynamicTemplateData := none }]
  { Subject := emailData.Subject
    From := { Email := emailData.From, Name := emailData.FromName }
    ReplyTo := if emailData.ReplyTo ≠ "" then some { Email := emailData.ReplyTo, Name := "" } else none
    Personalizations := personalizations
    TemplateID := emailData.XMCTemplate
    Categories := emailCategories }

/-- JSON of a `mail`: `name` is written only when non-empty. -/
def mail.toJSON (m : mail) : JSON :=
  JSON.obj ([("email", JSON.str m.Email)] ++ (if m.Name ≠ "" then [("name", JSON.str m.Name)] else []))

/-- JSON of a slice of `mail`: `null` for the nil slice. -/
def mailsToJSON : Option (List mail) → JSON
  | none => JSON.null
  | some ms => JSON.arr (ms.map mail.toJSON)

/-- JSON of a personalization block: the three keys are always written. -/
def personalization.toJSON (p : personalization) : Except String JSON :=
  match marshalMergeVars p.DynamicTemplateData with
  | Except.error err => Except.error err
  | Except.ok data =>
    Except.ok (JSON.obj [("to", mailsToJSON p.To), ("cc", mailsToJSON p.CC),
      ("dynamic_template_data", data)])

/-- JSON of the blocks, stopping at the first that cannot be encoded. -/
def personalizationsToJSON : List personalization → Except String (List JSON)
  | [] => Except.ok []
  | p :: rest =>
    match p.toJSON with
    | Except.error err => Except.error err
    | Except.ok j =>
      match personalizationsToJSON rest with
      | Except.error err => Except.error err
      | Except.ok js => Except.ok (j :: js)

/-- `json.Marshal(payload)`: the members in field order; `reply_to` and
`categories` are written only when set (`omitempty`), `attachments` is the
nil slice. -/
def emailPayload.toJSON (p : emailPayload) : Except String JSON :=
  match personalizationsToJSON p.Personalizations with
  | Except.error err => Except.error err
  | Except.ok blocks =>
    Except.ok (JSON.obj (
      [("subject", JSON.str p.Subject), ("from", p.From.toJSON)]
      ++ (match p.ReplyTo with
          | some r => [("reply_to", r.toJSON)]
          | none => [])
      ++ [("personalizations", JSON.arr blocks), ("template_id", JSON.str p.TemplateID),
          ("attachments", JSON.null)]
      ++ (if p.Categories.isEmpty then [] else
          [("categories", JSON.arr (p.Categories.map JSON.str))])))

/-- `MailSender.Send`: POST of the payload to `Host + sendEmailPath`; only
status 202 is success. -/
def MailSender.Send (net : Net) (e : MailSender) (emailData : EmailData) : SendRun :=
  match (payloadOf e emailData).toJSON with
  | Except.error err => { result := some (GoError.library err), trace := [] }
  | Except.ok payloadBytes =>
    let req : HTTPRequest :=
      { method := "POST"
        url := e.Host ++ sendEmailPath
        headers := [("Authorization", "Bearer " ++ e.APIKey), ("Content-Type", "application/json")]
        body := some payloadBytes }
    match net.http req with
    | HTTPOutcome.invalidRequest err => { result := some (GoError.library err), trace := [] }
    | HTTPOutcome.transportError err =>
      { result := some (GoError.library err), trace := [Event.httpDo req] }
    | HTTPOutcome.response status body =>
      if status ≠ 202 then
        match body with
        | Except.error errReadResp =>
          { result := some (GoError.library errReadResp), trace := [Event.httpDo req] }
        | Except.ok errorsResponseBody =>
          { result := some (GoError.errorsNew errorsResponseBody), trace := [Event.httpDo req] }
      else { result := none, trace := [Event.httpDo req] }

end sendgrid

/-! ## platform/mandrill/mandrill_api.go -/

namespace mandrill

def sendEmailPath : String := "/api/1.0/messages/send-template.json"

/-- An entry of the recipient list (`Type_` is the Go field `Type`). -/
structure mailTo where
  Email : String
  Name : String
  Type_ : String

structure mergeVar where
  Name : String
  Content : String

/-- The message part of the payload (`Attachment` is never set and stays
nil). -/
structure message where
  Subject : String
  FromEmail : String
  FromName : String
  To : List mailTo
  GlobalMergeVars : List mergeVar

structure emailPayload where
  Key : String
  TemplateName : String
  TemplateContent : String
  Message : message
  Async : Bool

/-- `NewMandrillClientWithAPIKey`. -/
def NewMandrillClientWithAPIKey (apiURL apiKey : String) : SenderPlatform :=
  SenderPlatform.mandrill { Host := apiURL, APIKey := apiKey }

/-- `convertToMergeVars`: one entry per key of the map, in the order `range`
walks it, each value rendered with `%v`; empty for the nil map. -/
def convertToMergeVars (lib : Lib) (xmcMergeVars : Option (GoMap Value)) : List mergeVar :=
  match xmcMergeVars with
  | none => []
  | some m =>
    (lib.rangeOrder m).foldl
      (fun mergeVars kv => mergeVars ++ [{ Name := kv.1, Content := kv.2.format }]) []

/-- The payload that the API client's `Send` builds from the message. -/
def payloadOf (lib : Lib) (e : MailSender) (emailData : EmailData) : emailPayload :=
  let mergeVars := convertToMergeVars lib emailData.XMCMergeVars
  let msg : message :=
    { Subject := emailData.Subject
      FromEmail := emailData.From
      FromName := emailData.FromName
      To := [{ Email := emailData.To, Name := "", Type_ := "to" }]
      GlobalMergeVars := mergeVars }
  { Key := e.APIKey
    TemplateName := emailData.XMCTemplate
    TemplateContent := ""
    Message := msg
    Async := false }

def mailTo.toJSON (m : mailTo) : JSON :=
  JSON.obj ([("email", JSON.str m.Email)]
    ++ (if m.Name ≠ "" then [("name", JSON.str m.Name)] else [])
    ++ [("type", JSON.str m.Type_)])

def mergeVar.toJSON (v : mergeVar) : JSON :=
  JSON.obj [("name", JSON.str v.Name), ("content", JSON.str v.Content)]

def message.toJSON (m : message) : JSON :=
  JSON.obj [("subject", JSON.str m.Subject), ("from_email", JSON.str m.FromEmail),
    ("from_name", JSON.str m.FromName), ("to", JSON.arr (m.To.map mailTo.toJSON)),
    ("global_merge_vars", JSON.arr (m.GlobalMergeVars.map mergeVar.toJSON)),
    ("attachments", JSON.null)]

/-- `json.Marshal(payload)`; it cannot fail, every leaf being a string or a
bool. -/
def emailPayload.toJSON (p : emailPayload) : JSON :=
  JSON.obj [("key", JSON.str p.Key), ("template_name", JSON.str p.TemplateName),
    ("template_content", JSON.str p.TemplateContent), ("message", p.Message.toJSON),
    ("async", JSON.bool p.Async)]

/-- `MailSender.Send` of the API client: POST of the payload to
`Host + sendEmailPath`; only status 200 is success. -/
def MailSender.Send (lib : Lib) (net : Net) (e : MailSender) (emailData : EmailData) : SendRun :=
  let req : HTTPRequest :=
    { method := "POST"
      url := e.Host ++ sendEmailPath
      headers := [("Content-Type", "application/json")]
      body := some (payloadOf lib e emailData).toJSON }
  match net.http req with
  | HTTPOutcome.invalidRequest err => { result := some (GoError.library err), trace := [] }
  | HTTPOutcome.transportError err =>
    { result := some (GoError.library err), trace := [Event.httpDo req] }
  | HTTPOutcome.response status body =>
    if status ≠ 200 then
      match body with
      | Except.error errReadResp =>
        { result := some (GoError.library errReadResp), trace := [Event.httpDo req] }
      | Except.ok errorsResponseBody =>
        { result := some (GoError.errorsNew errorsResponseBody), trace := [Event.httpDo req] }
    else { result := none, trace := [Event.httpDo req] }

/-! ## platform/mandrill/mandrill_smtp.go -/

/-- `NewMandrillClientWithSMTP`. -/
def NewMandrillClientWithSMTP (smtpHost : String) (smtpPort : Int)
    (smtpUsername smtpPassword : String) : SenderPlatform :=
  SenderPlatform.mandrillSMTP
    { Host := smtpHost, Port := smtpPort, Username := smtpUsername, Password := smtpPassword }

/-- The header keys of the message, in the order they are written. -/
def headerKeysOf (emailData : EmailData) : List String :=
  let headerKeys :=
    ["Return-Path", "From", "To", "MIME-Version", "Content-Type", "Content-Transfer-Encoding"]
  let headerKeys :=
    if emailData.XMCTemplate ≠ "" then headerKeys ++ ["X-MC-Template", "X-MC-MergeVars"]
    else headerKeys
  if emailData.ReplyTo ≠ "" then headerKeys ++ ["Reply-To"] else headerKeys

/-- The header map of the message; `mergeVars` is the text of the marshalled
merge variables. -/
def headerOf (lib : Lib) (emailData : EmailData) (mergeVars : String) : GoMap String :=
  let header : GoMap String := []
  let header := header.set "Return-Path" emailData.From
  let header := header.set "From" (lib.addressString emailData.FromName emailData.From)
  let header := header.set "To" (lib.addressString "" emailData.To)
  let header := header.set "MIME-Version" "1.0"
  let header := header.set "Content-Type" "text/plain; charset=\"utf-8\""
  let header := header.set "Content-Transfer-Encoding" "base64"
  let header :=
    if emailData.XMCTemplate ≠ "" then
      (header.set "X-MC-Template" emailData.XMCTemplate).set "X-MC-MergeVars" mergeVars
    else header
  if emailData.ReplyTo ≠ "" then header.set "Reply-To" (lib.addressString "" emailData.ReplyTo)
  else header

/-- One header line, `fmt.Sprintf("%s: %s\r\n", key, value)`. -/
def headerLine (key value : String) : String :=
  key ++ ": " ++ value ++ "\r\n"

/-- The message text: one `key: value\r\n` line per header key, in order; a
key missing from the map reads as the empty string. -/
def messageOf (headerKeys : List String) (header : GoMap String) : String :=
  headerKeys.foldl (fun msg key => msg ++ (key ++ ": " ++ (header.get key).getD "" ++ "\r\n")) ""

/-- `SMTPMailSender.Send`: marshals the merge variables, assembles the
headers and hands the message to `smtp.SendMail`. -/
def SMTPMailSender.Send (lib : Lib) (net : Net) (e : SMTPMailSender) (emailData : EmailData) :
    SendRun :=
  match marshalMergeVars emailData.XMCMergeVars with
  | Except.error err => { result := some (GoError.library err), trace := [] }
  | Except.ok mergeVars =>
    let msg := messageOf (headerKeysOf emailData) (headerOf lib emailData (lib.jsonText mergeVars))
    let sub : SMTPSubmission :=
      { addr := e.Host ++ ":" ++ toString e.Port
        username := e.Username
        password := e.Password
        host := e.Host
        sender := emailData.From
        recipients := [emailData.To]
        msg := msg }
    match net.smtp sub with
    | some err => { result := some (GoError.library err), trace := [Event.smtpSendMail sub] }
    | none => { result := none, trace := [Event.smtpSendMail sub] }

end mandrill

/-- `Send` of a `platform.SenderPlatform`: the method of the client behind the
interface. -/
def SenderPlatform.Send (lib : Lib) (net : Net) : SenderPlatform → EmailData → SendRun
  | SenderPlatform.sendgrid c, emailData => c.Send net emailData
  | SenderPlatform.mandrill c, emailData => c.Send lib net emailData
  | SenderPlatform.mandrillSMTP c, emailData => c.Send lib net emailData

/-! ## configserviceemailsender.go -/

/-- `ConfigServiceEmailSender`: the configuration proxy and the cache of
provider clients, keyed by API key. -/
structure ConfigServiceEmailSender where
  ConfigServiceProxy : APIProxy
  SenderPlatformCache : Cache SenderPlatform

/-- The clock readings one `SendEmail` may take: by `Get` and `Set` of the
configuration cache, by `time.Now().Year()`, and by `Get` and `Set` of the
provider-client cache. -/
structure Clock where
  configGet : Int
  configSet : Int
  year : Int
  senderGet : Int
  senderSet : Int

/-- `getSenderPlatform`: the client cached under the API key or, on a miss, a
new SendGrid client with no default categories, stored under the key.
`none` would be the nil interface. -/
def ConfigServiceEmailSender.getSenderPlatform (tGet tSet : Int) (e : ConfigServiceEmailSender)
    (apiKey : String) : Option SenderPlatform × ConfigServiceEmailSender :=
  match e.SenderPlatformCache.Get tGet apiKey with
  | some result => (some result, e)
  | none =>
    let senderPlatform := sendgrid.NewSendGridClient apiKey ""
    (some senderPlatform,
      { e with SenderPlatformCache := e.SenderPlatformCache.Set tSet apiKey senderPlatform 0 })

/-- States of the provider-client cache that only `getSenderPlatform` has
written to: the empty cache made by `cache.New`, and the cache left by a call
of `getSenderPlatform` on such a state. -/
inductive PopulatedByGetSenderPlatform : Cache SenderPlatform → Prop where
  | fresh (defaultExpiration cleanupInterval : Int) :
    PopulatedByGetSenderPlatform (Cache.New defaultExpiration cleanupInterval)
  | call (e : ConfigServiceEmailSender) (tGet tSet : Int) (apiKey : String) :
    PopulatedByGetSenderPlatform e.SenderPlatformCache →
    PopulatedByGetSenderPlatform (e.getSenderPlatform tGet tSet apiKey).2.SenderPlatformCache

/-- Result of `SendEmail`: the error returned (`none` for nil) or a panic, the
sender afterwards, and the effects. -/
structure SendEmailRun where
  outcome : Exec (Option GoError)
  sender : ConfigServiceEmailSender
  trace : List Event

/-- `ConfigServiceEmailSender.SendEmail`.  The template is looked up only when
`XMCTemplate` is non-empty; `emailTemplate` is the result of that lookup (nil
when there was none), and a panic in the lookup ends the call. -/
def ConfigServiceEmailSender.SendEmail (K : Constants) (lib : Lib) (net : Net) (clk : Clock)
    (e : ConfigServiceEmailSender) (ctx : Context) (emailData : EmailData) : SendEmailRun :=
  if emailData.Namespace = "" then
    { outcome := Exec.done (some (GoError.errorsNew "namespace is not specified yet"))
      sender := e, trace := [] }
  else
    let g := e.ConfigServiceProxy.GetEmailSenderConfiguration lib net clk.configGet clk.configSet
      ctx emailData.Namespace
    let e1 : ConfigServiceEmailSender := { e with ConfigServiceProxy := g.proxy }
    match g.outcome with
    | Exec.panicked r => { outcome := Exec.panicked r, sender := e1, trace := g.trace }
    | Exec.done (_, some err) => { outcome := Exec.done (some err), sender := e1, trace := g.trace }
    | Exec.done (none, none) =>
      { outcome := Exec.done (some GoError.ErrConfigurationNotFound), sender := e1
        trace := g.trace }
    | Exec.done (some emailSenderConfiguration, none) =>
      if !emailSenderConfiguration.IsDomainAuthenticated then
        { outcome := Exec.done (some GoError.ErrConfigurationNotValid), sender := e1
          trace := g.trace }
      else
        let emailData : EmailData :=
          if emailData.From = "" then
            { emailData with From := emailSenderConfiguration.FromAddress }
          else emailData
        let emailData : EmailData :=
          if emailData.FromName = "" then
            { emailData with FromName := emailSenderConfiguration.FromName }
          else emailData
        let emailTemplate : Exec (Option EmailTemplate) :=
          if emailData.XMCTemplate ≠ "" then
            emailSenderConfiguration.GetEmailTemplate emailData.XMCTemplate
          else Exec.done none
        match emailTemplate with
        | Exec.panicked r => { outcome := Exec.panicked r, sender := e1, trace := g.trace }
        | Exec.done emailTemplate =>
          let emailData : EmailData :=
            match emailTemplate with
            | some emailTemplate => { emailData with XMCTemplate := emailTemplate.TemplateID }
            | none => emailData
          match emailData.SetTemplateAdditionalData K clk.year with
          | Exec.panicked r => { outcome := Exec.panicked r, sender := e1, trace := g.trace }
          | Exec.done emailData =>
            match e1.getSenderPlatform clk.senderGet clk.senderSet
              emailSenderConfiguration.APIKey with
            | (none, e2) =>
              { outcome := Exec.done (some GoError.ErrSenderPlatformNotExist), sender := e2
                trace := g.trace }
            | (some senderPlatform, e2) =>
              let s := senderPlatform.Send lib net emailData
              { outcome := Exec.done s.result, sender := e2
                trace := g.trace ++ Event.send senderPlatform emailData :: s.trace }

/-! ## staticemailsender.go -/

/-- `StaticEmailSender`, with its provider set (a non-nil interface). -/
structure StaticEmailSender where
  SenderPlatform : SenderPlatform
  FromAddress : String
  FromName : String

/-- `NewStaticEmailSender`; `Getenv` is `os.Getenv` (the empty string for a
variable that is not set). -/
def NewStaticEmailSender (K : Constants) (lib : Lib) (Getenv : String → String) :
    Except GoError StaticEmailSender :=
  let senderPlatform := Getenv "APP_EMAIL_SENDER_NAME"
  if senderPlatform = "" then
    Except.error (GoError.errorsNew "APP_EMAIL_SENDER_NAME environment variable is not set")
  else
    let fromAddress := Getenv "FROM_EMAIL_ADDRESS"
    if fromAddress = "" then
      Except.error (GoError.errorsNew "FROM_EMAIL_ADDRESS environment variable is not set")
    else
      let fromName := Getenv "FROM_EMAIL_NAME"
      if senderPlatform = sendgrid.PlatformID then
        let apiKey := Getenv "SENDGRID_API_KEY"
        if apiKey = "" then
          Except.error (GoError.errorsNew "SENDGRID_API_KEY environment variable is not set")
        else
          let emailCategories := Getenv "SENDGRID_EMAIL_CATEGORIES"
          Except.ok
            { SenderPlatform := sendgrid.NewSendGridClient apiKey emailCategories
              FromAddress := fromAddress, FromName := fromName }
      else if senderPlatform = K.mandrillPlatformID then
        let apiURL := if Getenv "MANDRILL_API_URL" ≠ "" then Getenv "MANDRILL_API_URL"
          else "https://mandrillapp.com"
        let smtpHost := if Getenv "MANDRILL_SMTP_HOST" ≠ "" then Getenv "MANDRILL_SMTP_HOST"
          else "smtp.mandrillapp.com"
        let smtpPort : Option Int :=
          if Getenv "MANDRILL_SMTP_PORT" ≠ "" then lib.Atoi (Getenv "MANDRILL_SMTP_PORT")
          else some 587
        match smtpPort with
        | none => Except.error (GoError.errorsNew "MANDRILL_SMTP_PORT value must be an integer")
        | some smtpPort =>
          let apiKey := Getenv "MANDRILL_API_KEY"
          let smtpUsername := Getenv "MANDRILL_USERNAME"
          let smtpPassword := Getenv "MANDRILL_PASSWORD"
          if apiURL ≠ "" ∧ apiKey ≠ "" then
            Except.ok
              { SenderPlatform := mandrill.NewMandrillClientWithAPIKey apiURL apiKey
                FromAddress := fromAddress, FromName := fromName }
          else if smtpHost ≠ "" ∨ smtpPort ≠ 0 ∨ smtpUsername ≠ "" ∨ smtpPassword ≠ "" then
            Except.ok
              { SenderPlatform :=
                  mandrill.NewMandrillClientWithSMTP smtpHost smtpPort smtpUsername smtpPassword
                FromAddress := fromAddress, FromName := fromName }
          else
            Except.error (GoError.errorsNew
              ("required mandrill environment variables is not set. "
                ++ "For API Key: MANDRILL_API_URL, MANDRILL_API_KEY. "
                ++ "For SMTP: MANDRILL_SMTP_HOST, MANDRILL_SMTP_PORT, MANDRILL_USERNAME, "
                ++ "MANDRILL_PASSWORD"))
      else
        Except.error (GoError.errorsNew (senderPlatform ++ " email sender platform is not valid"))

/-- Result of `StaticEmailSender.SendEmail`: the error returned (`none` for
nil) or a panic, and the effects. -/
structure StaticRun where
  outcome : Exec (Option GoError)
  trace : List Event

/-- `StaticEmailSender.SendEmail`, with `year` the reading
`time.Now().Year()`. -/
def StaticEmailSender.SendEmail (K : Constants) (lib : Lib) (net : Net) (year : Int)
    (e : StaticEmailSender) (emailData : EmailData) : StaticRun :=
  match emailData.SetTemplateAdditionalData K year with
  | Exec.panicked r => { outcome := Exec.panicked r, trace := [] }
  | Exec.done emailData =>
    let emailData : EmailData := { emailData with From := e.FromAddress }
    let emailData : EmailData := { emailData with FromName := e.FromName }
    let s := e.SenderPlatform.Send lib net emailData
    { outcome := Exec.done s.result, trace := Event.send e.SenderPlatform emailData :: s.trace }

/-! ## Example instances of the parameters

Concrete values of the parameters, used where a statement is evaluated at
an explicit input. -/

/-- Example values of the constants. -/
def sampleConstants : Constants :=
  { CopyrightYearTemplateKey := "copyrightYear"
    LanguageTagTemplateKey := "languageTag"
    mandrillPlatformID := "mandrill" }

/-- A verified configuration with one template. -/
def sampleConfiguration : EmailSenderConfiguration :=
  { Namespace := "acme"
    FromAddress := "a@b.com"
    FromName := "Acme"
    APIKey := "SG.key"
    IsDomainAuthenticated := true
    EmailTemplates := [some { TemplateName := "welcome", TemplateID := "tmpl_123" }] }

/-- The error body of the configuration service for an absent tenant. -/
def notFoundBody : String :=
  "\x7b\"errorCode\":20008,\"errorMessage\":\"not found\"\x7d"

/-- Example library functions: the decoders read two fixed documents the way
`json.Unmarshal` does and reject every other text of the examples. -/
def sampleLib : Lib :=
  { unmarshalErrorEntity := fun body =>
      if body = notFoundBody then Except.ok { ErrorCode := 20008, ErrorMessage := "not found" }
      else if body = "\x7b\"errorCode\":20001,\"errorMessage\":\"unauthorized\"\x7d" then
        Except.ok { ErrorCode := 20001, ErrorMessage := "unauthorized" }
      else Except.error "invalid character"
    unmarshalEmailSenderConfiguration := fun body =>
      if body = "acme-configuration" then Except.ok sampleConfiguration
      else Except.error "invalid character"
    jsonText := fun _ => ""
    addressString := fun name address =>
      if name = "" then "<" ++ address ++ ">" else "\"" ++ name ++ "\" <" ++ address ++ ">"
    Atoi := String.toInt?
    rangeOrder := fun m => m }

/-- As `sampleLib`, but every configuration document decodes to the sample
configuration with the verification flag off. -/
def unverifiedLib : Lib :=
  { sampleLib with
    unmarshalEmailSenderConfiguration := fun _ =>
      Except.ok { sampleConfiguration with IsDomainAuthenticated := false } }

/-- A context carrying the access token `"token"`. -/
def sampleContext : Context := { ServiceAccessToken := Value.str "token" }

/-- A network on which every HTTP exchange and every SMTP submission fails
in transport. -/
def unreachableNet : Net :=
  { http := fun _ => HTTPOutcome.transportError "connection refused"
    smtp := fun _ => some "connection refused" }

/-- A network that answers every HTTP request with the given status and
body, and accepts every SMTP submission. -/
def constantNet (status : Nat) (body : String) : Net :=
  { http := fun _ => HTTPOutcome.response status (Except.ok body)
    smtp := fun _ => none }

/-- A network whose configuration service serves `sampleConfiguration` (GET)
and whose provider accepts every message (POST, 202). -/
def servingNet : Net :=
  { http := fun req =>
      if req.method = "GET" then HTTPOutcome.response 200 (Except.ok "acme-configuration")
      else HTTPOutcome.response 202 (Except.ok "")
    smtp := fun _ => none }

/-- A message to `x@y.com` with nothing else set. -/
def sampleEmail : EmailData :=
  { Namespace := "acme", From := "", FromName := "", To := "x@y.com", Subject := "Hi"
    ReplyTo := "", XMCTemplate := "", XMCMergeVars := none, Categories := [], CarbonCopy := [] }

/-- The sample message with the given merge variables. -/
def emailWithVars (vars : GoMap Value) : EmailData :=
  { sampleEmail with XMCMergeVars := some vars }

/-- A static sender over a SendGrid client. -/
def sampleStaticSender : StaticEmailSender :=
  { SenderPlatform := sendgrid.NewSendGridClient "SG.key" ""
    FromAddress := "noreply@acme.com"
    FromName := "Acme" }

/-- An environment that selects the provider `mandrill` and sets the sender
address, and nothing else. -/
def mandrillOnlyEnv (name : String) : String :=
  if name = "APP_EMAIL_SENDER_NAME" then "mandrill"
  else if name = "FROM_EMAIL_ADDRESS" then "noreply@acme.com"
  else ""

/-- As `sampleLib`, with a JSON writer that renders every document as the
text `DOC`. -/
def smtpLib : Lib :=
  { sampleLib with jsonText := fun _ => "DOC" }

/-- A message from `a@b.com` (Acme) to `x@y.com` with the template `welcome`
and the merge variable `name = "Ann"`. -/
def smtpEmail : EmailData :=
  { Namespace := "acme", From := "a@b.com", FromName := "Acme", To := "x@y.com", Subject := "Hi"
    ReplyTo := "", XMCTemplate := "welcome", XMCMergeVars := some [("name", Value.str "Ann")]
    Categories := [], CarbonCopy := [] }

/-- The sample message with a merge variable that `json.Marshal` rejects (a
channel). -/
def unmarshalableEmail : EmailData :=
  emailWithVars
    [("queue", Value.other (Except.error "json: unsupported type: chan int") "0xc000012345")]

/-- A resolved sender with both caches empty and lifetimes of 60 seconds. -/
def sampleSender : ConfigServiceEmailSender :=
  { ConfigServiceProxy := NewConfigServiceProxy "http://config" 60
    SenderPlatformCache := Cache.New 60000000000 120000000000 }

/-- Clock readings of one send in the year 2023. -/
def sampleClock : Clock :=
  { configGet := 1700000000000000000
    configSet := 1700000000200000000
    year := 2023
    senderGet := 1700000000200000001
    senderSet := 1700000000200000002 }

/-! ## Maps and the cache -/

theorem GoMap.get_set_self {β : Type} (m : GoMap β) (k : String) (v : β) :
    (m.set k v).get k = some v := by
  induction m with
  | nil => simp [GoMap.set, GoMap.get]
  | cons p rest ih =>
    obtain ⟨k', v'⟩ := p
    by_cases h : k' = k
    · simp [GoMap.set, GoMap.get, h]
    · simp [GoMap.set, GoMap.get, h, ih]

theorem GoMap.get_set_ne {β : Type} (m : GoMap β) (k k2 : String) (v : β) (h : k ≠ k2) :
    (m.set k v).get k2 = m.get k2 := by
  induction m with
  | nil => simp [GoMap.set, GoMap.get, h]
  | cons p rest ih =>
    obtain ⟨k', v'⟩ := p
    by_cases h1 : k' = k
    · subst h1
      simp [GoMap.set, GoMap.get, h]
    · by_cases h2 : k' = k2
      · subst h2
        simp [GoMap.set, GoMap.get, h1]
      · simp [GoMap.set, GoMap.get, h1, h2, ih]

theorem GoMap.set_eq_self {β : Type} (m : GoMap β) (k : String) (v : β)
    (h : m.get k = some v) : m.set k v = m := by
  induction m with
  | nil => simp [GoMap.get] at h
  | cons p rest ih =>
    obtain ⟨k', v'⟩ := p
    by_cases h1 : k' = k
    · subst h1
      simp [GoMap.get] at h
      simp [GoMap.set, h]
    · simp [GoMap.get, h1] at h
      simp [GoMap.set, h1, ih h]

theorem wrapInt64_of_range (x : Int) (h0 : -9223372036854775808 ≤ x)
    (h1 : x < 9223372036854775808) : wrapInt64 x = x := by
  unfold wrapInt64
  omega

/-! ## C1: the configuration cache -/

theorem fetch_trace_fetchCount (lib : Lib) (net : Net) (e : APIProxy) (ctx : Context)
    (tenant : String) :
    fetchCount (e.fetchEmailSenderConfiguration lib net ctx tenant).trace = 0 := by
  unfold APIProxy.fetchEmailSenderConfiguration
  split
  · rfl
  · rfl
  · simp only []
    split <;> rfl

theorem get_of_hit (lib : Lib) (net : Net) (e : APIProxy) (ctx : Context)
    (tenant : String) (tGet tSet : Int) (cfg : EmailSenderConfiguration)
    (h : e.Cache.Get tGet tenant = some cfg) :
    e.GetEmailSenderConfiguration lib net tGet tSet ctx tenant
      = { outcome := Exec.done (some cfg, none), proxy := e, trace := [] } := by
  unfold APIProxy.GetEmailSenderConfiguration
  rw [h]

theorem get_fetchCount_miss (lib : Lib) (net : Net) (e : APIProxy) (ctx : Context)
    (tenant : String) (tGet tSet : Int)
    (h : e.Cache.Get tGet tenant = none) :
    fetchCount (e.GetEmailSenderConfiguration lib net tGet tSet ctx tenant).trace = 1 := by
  have hf := fetch_trace_fetchCount lib net e ctx tenant
  unfold APIProxy.GetEmailSenderConfiguration
  rw [h]
  simp only []
  unfold fetchCount at hf ⊢
  split
  · simp [Event.isFetch, hf]
  · split <;> simp [Event.isFetch, hf]
  · simp [Event.isFetch, hf]

theorem get_miss_success (lib : Lib) (net : Net) (e : APIProxy) (ctx : Context)
    (tenant : String) (tGet tSet : Int) (cfg : EmailSenderConfiguration)
    (h : e.Cache.Get tGet tenant = none)
    (hret : (e.GetEmailSenderConfiguration lib net tGet tSet ctx tenant).outcome
      = Exec.done (some cfg, none)) :
    (e.GetEmailSenderConfiguration lib net tGet tSet ctx tenant).proxy
      = { e with Cache := e.Cache.Set tSet tenant cfg 0 } := by
  unfold APIProxy.GetEmailSenderConfiguration at hret ⊢
  rw [h] at hret ⊢
  simp only [] at hret ⊢
  split at hret
  · simp at hret
  · split at hret <;> simp at hret
  · rename_i emailSender heq
    simp only [Exec.done.injEq, Prod.mk.injEq, Option.some.injEq, and_true] at hret
    subst hret
    simp [heq]

theorem Cache.Get_Set_self {α : Type} (c : Cache α) (now t : Int) (k : String) (x : α)
    (hd : 0 < c.defaultExpiration) (h0 : 0 ≤ now)
    (h1 : now + c.defaultExpiration < 9223372036854775808) :
    (c.Set now k x 0).Get t k = if now + c.defaultExpiration < t then none else some x := by
  unfold Cache.Set Cache.Get
  simp only [if_true, GoMap.get_set_self, hd]
  rw [wrapInt64_of_range _ (by omega) h1]
  have : 0 < now + c.defaultExpiration := by omega
  simp [this]

/-- C1, as amended.  For every proxy state, tenant, context and network:
a call of `GetEmailSenderConfiguration` issues at most one remote fetch; a call
that finds the tenant in the cache returns the cached configuration without
any fetch and leaves the proxy as it was; and when a call misses, fetches and
returns a configuration `cfg`, storing it at clock reading `t1'` in a cache
whose item lifetime `ttl` is positive (`t1' + ttl` in `int64` range), then a
call at any reading `t2 ≤ t1' + ttl` returns `cfg` with no fetch and no change
of the proxy, whatever the network does, while a call at a reading
`t2 > t1' + ttl` issues exactly one fetch. -/
theorem cache_window (lib : Lib) (net1 net2 : Net) (e : APIProxy) (ctx : Context)
    (tenant : String) (t1 t1' t2 t2' : Int) :
    fetchCount (e.GetEmailSenderConfiguration lib net1 t1 t1' ctx tenant).trace ≤ 1 ∧
    (∀ cfg, e.Cache.Get t1 tenant = some cfg →
      e.GetEmailSenderConfiguration lib net1 t1 t1' ctx tenant
        = { outcome := Exec.done (some cfg, none), proxy := e, trace := [] }) ∧
    (∀ cfg, e.Cache.Get t1 tenant = none →
      (e.GetEmailSenderConfiguration lib net1 t1 t1' ctx tenant).outcome
        = Exec.done (some cfg, none) →
      0 < e.Cache.defaultExpiration → 0 ≤ t1' →
      t1' + e.Cache.defaultExpiration < 9223372036854775808 →
      (t2 ≤ t1' + e.Cache.defaultExpiration →
        (e.GetEmailSenderConfiguration lib net1 t1 t1' ctx tenant).proxy.GetEmailSenderConfiguration
            lib net2 t2 t2' ctx tenant
          = { outcome := Exec.done (some cfg, none)
              proxy := (e.GetEmailSenderConfiguration lib net1 t1 t1' ctx tenant).proxy
              trace := [] }) ∧
      (t1' + e.Cache.defaultExpiration < t2 →
        fetchCount
          ((e.GetEmailSenderConfiguration lib net1 t1 t1' ctx tenant).proxy.GetEmailSenderConfiguration
            lib net2 t2 t2' ctx tenant).trace = 1)) := by
  refine ⟨?_, ?_, ?_⟩
  · cases h : e.Cache.Get t1 tenant with
    | none => exact le_of_eq (get_fetchCount_miss lib net1 e ctx tenant t1 t1' h)
    | some cfg =>
      rw [get_of_hit lib net1 e ctx tenant t1 t1' cfg h]
      simp [fetchCount]
  · intro cfg h
    exact get_of_hit lib net1 e ctx tenant t1 t1' cfg h
  · intro cfg h hret hd h0 h1
    rw [get_miss_success lib net1 e ctx tenant t1 t1' cfg h hret]
    have hget := Cache.Get_Set_self e.Cache t1' t2 tenant cfg hd h0 h1
    constructor
    · intro hle
      apply get_of_hit
      simp only [hget]
      rw [if_neg (by omega)]
    · intro hlt
      apply get_fetchCount_miss
      simp only [hget]
      rw [if_pos hlt]

/-- C1 at a concrete input: a proxy with a lifetime of 60 seconds fetches the
configuration of `acme` and stores it at second 1700000000.2; a call 59.8
seconds after the store is answered from the cache although the service is down, and a
call 60.000000001 seconds after the store fetches. -/
theorem cache_window_witness :
    (((NewConfigServiceProxy "h" 60).GetEmailSenderConfiguration sampleLib servingNet
        1700000000000000000 1700000000200000000 sampleContext "acme").proxy.GetEmailSenderConfiguration
      sampleLib unreachableNet 1700000060000000000 1700000060000000001 sampleContext "acme").outcome
      = Exec.done (some sampleConfiguration, none) ∧
    fetchCount (((NewConfigServiceProxy "h" 60).GetEmailSenderConfiguration sampleLib servingNet
        1700000000000000000 1700000000200000000 sampleContext "acme").proxy.GetEmailSenderConfiguration
      sampleLib unreachableNet 1700000060200000001 1700000060300000000 sampleContext "acme").trace
      = 1 := by
  constructor
  · rw [((cache_window sampleLib servingNet unreachableNet (NewConfigServiceProxy "h" 60)
      sampleContext "acme" 1700000000000000000 1700000000200000000 1700000060000000000
      1700000060000000001).2.2 sampleConfiguration (by rfl) (by rfl) (by decide) (by decide)
      (by decide)).1 (by decide)]
  · exact ((cache_window sampleLib servingNet unreachableNet (NewConfigServiceProxy "h" 60)
      sampleContext "acme" 1700000000000000000 1700000000200000000 1700000060200000001
      1700000060300000000).2.2 sampleConfiguration (by rfl) (by rfl) (by decide) (by decide)
      (by decide)).2 (by decide)

/-- C1 as stated fails.  (1) With a lifetime of 60 seconds and a service that
answers 404 / errorCode 20008, the first call fetches and returns (nil, nil),
and a second call one second later fetches again: the second call of two made
within the TTL window issues one remote fetch, not zero.  (2) With
`cacheExpireInSeconds = 0` the entry stored by the first call is still served,
without a fetch, 10^8 seconds later: no new fetch after the TTL elapsed. -/
theorem cache_window_counterexample :
    ((NewConfigServiceProxy "h" 60).GetEmailSenderConfiguration sampleLib
        (constantNet 404 notFoundBody) 1700000000000000000 1700000000200000000
        sampleContext "acme").outcome = Exec.done (none, none) ∧
    fetchCount (((NewConfigServiceProxy "h" 60).GetEmailSenderConfiguration sampleLib
        (constantNet 404 notFoundBody) 1700000000000000000 1700000000200000000
        sampleContext "acme").proxy.GetEmailSenderConfiguration sampleLib
        (constantNet 404 notFoundBody) 1700000001000000000 1700000001200000000
        sampleContext "acme").trace = 1 ∧
    fetchCount (((NewConfigServiceProxy "h" 0).GetEmailSenderConfiguration sampleLib servingNet
        1700000000000000000 1700000000200000000 sampleContext "acme").proxy.GetEmailSenderConfiguration
      sampleLib servingNet 1800000000000000000 1800000000200000000 sampleContext "acme").trace
      = 0 := by
  refine ⟨?_, ?_, ?_⟩
  · rfl
  · rfl
  · rfl

/-! ## The resolved sender: what `SendEmail` does with a verified configuration -/

theorem setTemplate_congr (K : Constants) (year : Int) (d1 d2 : EmailData)
    (h : d1.XMCMergeVars = d2.XMCMergeVars) :
    (∀ r, d1.SetTemplateAdditionalData K year = Exec.panicked r →
      d2.SetTemplateAdditionalData K year = Exec.panicked r) ∧
    (∀ d, d1.SetTemplateAdditionalData K year = Exec.done d →
      d2.SetTemplateAdditionalData K year = Exec.done { d2 with XMCMergeVars := d.XMCMergeVars }) := by
  unfold EmailData.SetTemplateAdditionalData
  rw [h]
  simp only []
  constructor
  · intro r
    split
    · simp
    · split <;> simp
    · simp
  · intro d
    split
    · intro hd
      simp only [Exec.done.injEq] at hd
      subst hd
      rfl
    · split
      · intro hd
        simp only [Exec.done.injEq] at hd
        subst hd
        rfl
      · intro hd
        simp only [Exec.done.injEq] at hd
        subst hd
        rfl
    · simp

theorem setTemplate_fields (K : Constants) (year : Int) (d d' : EmailData)
    (h : d.SetTemplateAdditionalData K year = Exec.done d') :
    d' = { d with XMCMergeVars := d'.XMCMergeVars } := by
  have := (setTemplate_congr K year d d rfl).2 d' h
  rw [h] at this
  simp only [Exec.done.injEq] at this
  exact this

theorem getSenderPlatform_some (tGet tSet : Int) (e : ConfigServiceEmailSender) (apiKey : String) :
    ∃ sp, e.getSenderPlatform tGet tSet apiKey
      = (some sp, (e.getSenderPlatform tGet tSet apiKey).2) := by
  unfold ConfigServiceEmailSender.getSenderPlatform
  split
  · exact ⟨_, rfl⟩
  · exact ⟨_, rfl⟩

theorem sendEmail_verified (K : Constants) (lib : Lib) (net : Net) (clk : Clock)
    (e : ConfigServiceEmailSender) (ctx : Context) (emailData : EmailData)
    (cfg : EmailSenderConfiguration)
    (hns : emailData.Namespace ≠ "")
    (hcfg : (e.ConfigServiceProxy.GetEmailSenderConfiguration lib net clk.configGet clk.configSet
      ctx emailData.Namespace).outcome = Exec.done (some cfg, none))
    (hver : cfg.IsDomainAuthenticated = true) :
    (∀ r, (if emailData.XMCTemplate ≠ "" then cfg.GetEmailTemplate emailData.XMCTemplate
        else Exec.done none) = Exec.panicked r →
      (e.SendEmail K lib net clk ctx emailData).outcome = Exec.panicked r ∧
      (e.SendEmail K lib net clk ctx emailData).trace
        = (e.ConfigServiceProxy.GetEmailSenderConfiguration lib net clk.configGet clk.configSet
            ctx emailData.Namespace).trace) ∧
    (∀ found, (if emailData.XMCTemplate ≠ "" then cfg.GetEmailTemplate emailData.XMCTemplate
        else Exec.done none) = Exec.done found →
      (∀ r, emailData.SetTemplateAdditionalData K clk.year = Exec.panicked r →
        (e.SendEmail K lib net clk ctx emailData).outcome = Exec.panicked r ∧
        (e.SendEmail K lib net clk ctx emailData).trace
          = (e.ConfigServiceProxy.GetEmailSenderConfiguration lib net clk.configGet
              clk.configSet ctx emailData.Namespace).trace) ∧
      (∀ d0, emailData.SetTemplateAdditionalData K clk.year = Exec.done d0 →
        ∃ sp d, d = { emailData with
              From := if emailData.From = "" then cfg.FromAddress else emailData.From
              FromName := if emailData.FromName = "" then cfg.FromName else emailData.FromName
              XMCTemplate :=
                match found with
                | some emailTemplate => emailTemplate.TemplateID
                | none => emailData.XMCTemplate
              XMCMergeVars := d0.XMCMergeVars } ∧
          (e.SendEmail K lib net clk ctx emailData).trace
            = (e.ConfigServiceProxy.GetEmailSenderConfiguration lib net clk.configGet
                clk.configSet ctx emailData.Namespace).trace
              ++ Event.send sp d :: (sp.Send lib net d).trace ∧
          (e.SendEmail K lib net clk ctx emailData).outcome
            = Exec.done (sp.Send lib net d).result)) := by
  have hcong : ∀ P : EmailData, P.XMCMergeVars = emailData.XMCMergeVars →
      P.SetTemplateAdditionalData K clk.year =
        match emailData.SetTemplateAdditionalData K clk.year with
        | Exec.done d => Exec.done { P with XMCMergeVars := d.XMCMergeVars }
        | Exec.panicked r => Exec.panicked r := by
    intro P hP
    cases hd : emailData.SetTemplateAdditionalData K clk.year with
    | done d => exact (setTemplate_congr K clk.year emailData P hP.symm).2 d hd
    | panicked r => exact (setTemplate_congr K clk.year emailData P hP.symm).1 r hd
  obtain ⟨sp, hsp⟩ := getSenderPlatform_some clk.senderGet clk.senderSet
    { e with ConfigServiceProxy := (e.ConfigServiceProxy.GetEmailSenderConfiguration lib net
        clk.configGet clk.configSet ctx emailData.Namespace).proxy } cfg.APIKey
  constructor
  · intro r hlook
    unfold ConfigServiceEmailSender.SendEmail
    by_cases hF : emailData.From = "" <;> by_cases hN : emailData.FromName = "" <;>
      simp only [hns, if_false, if_true, hcfg, hver, Bool.not_true, Bool.false_eq_true,
        hF, hN, hlook, and_self]
  · intro found hlook
    unfold ConfigServiceEmailSender.SendEmail
    by_cases hF : emailData.From = "" <;> by_cases hN : emailData.FromName = "" <;>
      cases found <;>
      simp only [hns, if_false, if_true, hcfg, hver, Bool.not_true, Bool.false_eq_true,
        hF, hN, hlook] <;>
      (constructor
       · intro r hr
         rw [hcong]
         · rw [hr]
           exact ⟨rfl, rfl⟩
         · rfl
       · intro d0 hd0
         rw [hcong]
         · rw [hd0]
           simp only []
           rw [hsp]
           simp only []
           refine ⟨sp, _, ?_, rfl, rfl⟩
           rfl
         · rfl)
theorem dispatched_append (a b : List Event) :
    dispatched (a ++ b) = dispatched a ++ dispatched b := by
  induction a with
  | nil => rfl
  | cons ev rest ih =>
    cases ev <;> simp [dispatched, ih]

theorem fetch_trace_quiet (lib : Lib) (net : Net) (e : APIProxy) (ctx : Context)
    (tenant : String) :
    ∀ ev ∈ (e.fetchEmailSenderConfiguration lib net ctx tenant).trace,
      ev.isProvider = false ∧ dispatched [ev] = [] := by
  unfold APIProxy.fetchEmailSenderConfiguration
  split
  · simp
  · simp
  · simp only []
    split <;> simp [Event.isProvider, dispatched]

theorem get_trace_quiet (lib : Lib) (net : Net) (e : APIProxy) (ctx : Context)
    (tenant : String) (tGet tSet : Int) :
    ∀ ev ∈ (e.GetEmailSenderConfiguration lib net tGet tSet ctx tenant).trace,
      ev.isProvider = false ∧ dispatched [ev] = [] := by
  have hf := fetch_trace_quiet lib net e ctx tenant
  unfold APIProxy.GetEmailSenderConfiguration
  split
  · simp
  · simp only []
    split
    · intro ev hev
      simp only [List.mem_cons] at hev
      rcases hev with rfl | hev
      · exact ⟨rfl, rfl⟩
      · exact hf ev hev
    · split <;>
      · intro ev hev
        simp only [List.mem_cons] at hev
        rcases hev with rfl | hev
        · exact ⟨rfl, rfl⟩
        · exact hf ev hev
    · intro ev hev
      simp only [List.mem_cons] at hev
      rcases hev with rfl | hev
      · exact ⟨rfl, rfl⟩
      · exact hf ev hev

theorem dispatched_of_quiet (trace : List Event)
    (h : ∀ ev ∈ trace, ev.isProvider = false ∧ dispatched [ev] = []) : dispatched trace = [] := by
  induction trace with
  | nil => rfl
  | cons ev rest ih =>
    have h1 := (h ev (List.mem_cons_self _ _)).2
    have h2 := ih (fun x hx => h x (List.mem_cons_of_mem _ hx))
    have : ev :: rest = [ev] ++ rest := rfl
    rw [this, dispatched_append, h1, h2]
    rfl

theorem dispatched_send_trace (lib : Lib) (net : Net) (sp : SenderPlatform) (d : EmailData) :
    dispatched (sp.Send lib net d).trace = [] := by
  cases sp with
  | sendgrid c =>
    simp only [SenderPlatform.Send, sendgrid.MailSender.Send]
    split
    · rfl
    · split
      · rfl
      · rfl
      · split
        · split <;> rfl
        · rfl
  | mandrill c =>
    simp only [SenderPlatform.Send, mandrill.MailSender.Send]
    split
    · rfl
    · rfl
    · split
      · split <;> rfl
      · rfl
  | mandrillSMTP c =>
    simp only [SenderPlatform.Send, mandrill.SMTPMailSender.Send]
    split
    · rfl
    · split <;> rfl

/-! ## C2: template substitution -/

/-- The loop panics when a nil element comes before every template with the
name looked up. -/
theorem range_nil_first (name : String) (pre : List EmailTemplate)
    (post : List (Option EmailTemplate)) (hpre : ∀ u ∈ pre, u.TemplateName ≠ name) :
    EmailSenderConfiguration.rangeEmailTemplates name (pre.map some ++ none :: post)
      = Exec.panicked "runtime error: invalid memory address or nil pointer dereference" := by
  induction pre with
  | nil => rfl
  | cons u rest ih =>
    have hu : u.TemplateName ≠ name := hpre u (List.mem_cons_self _ _)
    simp only [List.map_cons, List.cons_append, EmailSenderConfiguration.rangeEmailTemplates, hu,
      if_false]
    exact ih (fun x hx => hpre x (List.mem_cons_of_mem _ hx))

/-- What `SendEmail` hands to the provider clients, for a message with a
namespace whose resolved configuration is verified: nothing when the template
lookup or the injection of the default merge variables panics, and otherwise
one message, the caller's with the sender fields backfilled, the template
found substituted and the merge variables injected. -/
theorem sendEmail_dispatched (K : Constants) (lib : Lib) (net : Net) (clk : Clock)
    (e : ConfigServiceEmailSender) (ctx : Context) (emailData : EmailData)
    (cfg : EmailSenderConfiguration)
    (hns : emailData.Namespace ≠ "")
    (hcfg : (e.ConfigServiceProxy.GetEmailSenderConfiguration lib net clk.configGet clk.configSet
      ctx emailData.Namespace).outcome = Exec.done (some cfg, none))
    (hver : cfg.IsDomainAuthenticated = true) :
    dispatched (e.SendEmail K lib net clk ctx emailData).trace = [] ∨
    ∃ found d0 sp d,
      (if emailData.XMCTemplate ≠ "" then cfg.GetEmailTemplate emailData.XMCTemplate
        else Exec.done none) = Exec.done found ∧
      emailData.SetTemplateAdditionalData K clk.year = Exec.done d0 ∧
      d = { emailData with
            From := if emailData.From = "" then cfg.FromAddress else emailData.From
            FromName := if emailData.FromName = "" then cfg.FromName else emailData.FromName
            XMCTemplate :=
              match found with
              | some emailTemplate => emailTemplate.TemplateID
              | none => emailData.XMCTemplate
            XMCMergeVars := d0.XMCMergeVars } ∧
      dispatched (e.SendEmail K lib net clk ctx emailData).trace = [(sp, d)] ∧
      (e.SendEmail K lib net clk ctx emailData).outcome = Exec.done (sp.Send lib net d).result := by
  have hcore := sendEmail_verified K lib net clk e ctx emailData cfg hns hcfg hver
  have hquiet := dispatched_of_quiet _
    (get_trace_quiet lib net e.ConfigServiceProxy ctx emailData.Namespace clk.configGet
      clk.configSet)
  cases hlook : (if emailData.XMCTemplate ≠ "" then cfg.GetEmailTemplate emailData.XMCTemplate
      else Exec.done none) with
  | panicked r =>
    left
    rw [(hcore.1 r hlook).2, hquiet]
  | done found =>
    cases hset : emailData.SetTemplateAdditionalData K clk.year with
    | panicked r =>
      left
      rw [((hcore.2 found hlook).1 r hset).2, hquiet]
    | done d0 =>
      right
      obtain ⟨sp, d, hd, htrace, hout⟩ := (hcore.2 found hlook).2 d0 hset
      refine ⟨found, d0, sp, d, rfl, rfl, hd, ?_, hout⟩
      rw [htrace, dispatched_append, hquiet]
      simp [dispatched, dispatched_send_trace]

/-- C3.  In `ConfigServiceEmailSender.SendEmail`, for a message with a
namespace whose resolved configuration is verified: every message handed to a
provider client has as `From` the configuration's `FromAddress` when the
caller's `From` is empty and the caller's `From` otherwise, and, independently,
as `FromName` the configuration's `FromName` when the caller's `FromName` is
empty and the caller's otherwise; exactly one message is handed to a provider
client whenever the template lookup (made when `XMCTemplate` is non-empty, and
panicking on a nil entry of the template list) returns and the injection of
the default merge variables completes; and when the template lookup panics,
`SendEmail` panics with it and hands nothing to a provider client. -/
theorem sender_backfill (K : Constants) (lib : Lib) (net : Net) (clk : Clock)
    (e : ConfigServiceEmailSender) (ctx : Context) (emailData : EmailData)
    (cfg : EmailSenderConfiguration)
    (hns : emailData.Namespace ≠ "")
    (hcfg : (e.ConfigServiceProxy.GetEmailSenderConfiguration lib net clk.configGet clk.configSet
      ctx emailData.Namespace).outcome = Exec.done (some cfg, none))
    (hver : cfg.IsDomainAuthenticated = true) :
    (∀ p ∈ dispatched (e.SendEmail K lib net clk ctx emailData).trace,
      (emailData.From = "" → p.2.From = cfg.FromAddress) ∧
      (emailData.From ≠ "" → p.2.From = emailData.From) ∧
      (emailData.FromName = "" → p.2.FromName = cfg.FromName) ∧
      (emailData.FromName ≠ "" → p.2.FromName = emailData.FromName)) ∧
    (∀ found d0,
      (if emailData.XMCTemplate ≠ "" then cfg.GetEmailTemplate emailData.XMCTemplate
        else Exec.done none) = Exec.done found →
      emailData.SetTemplateAdditionalData K clk.year = Exec.done d0 →
      ∃ sp d, dispatched (e.SendEmail K lib net clk ctx emailData).trace = [(sp, d)]) ∧
    (∀ r,
      (if emailData.XMCTemplate ≠ "" then cfg.GetEmailTemplate emailData.XMCTemplate
        else Exec.done none) = Exec.panicked r →
      dispatched (e.SendEmail K lib net clk ctx emailData).trace = [] ∧
      (e.SendEmail K lib net clk ctx emailData).outcome = Exec.panicked r) := by
  have hdisp := sendEmail_dispatched K lib net clk e ctx emailData cfg hns hcfg hver
  refine ⟨?_, ?_, ?_⟩
  rotate_left 2
  · intro r hlook
    have hcore := sendEmail_verified K lib net clk e ctx emailData cfg hns hcfg hver
    obtain ⟨hout, htrace⟩ := hcore.1 r hlook
    refine ⟨?_, hout⟩
    rw [htrace]
    exact dispatched_of_quiet _
      (get_trace_quiet lib net e.ConfigServiceProxy ctx emailData.Namespace clk.configGet
        clk.configSet)
  · intro p hp
    rcases hdisp with hnone | ⟨found, d0, sp, d, _, _, hd, hone, _⟩
    · rw [hnone] at hp
      simp at hp
    · rw [hone] at hp
      simp only [List.mem_singleton] at hp
      subst hp
      refine ⟨?_, ?_, ?_, ?_⟩ <;> intro h <;> simp [hd, h]
  · intro found d0 hlook hset
    rcases hdisp with hnone | ⟨_, _, sp, d, _, _, _, hone, _⟩
    · have hcore := sendEmail_verified K lib net clk e ctx emailData cfg hns hcfg hver
      obtain ⟨sp, d, _, htrace, _⟩ := (hcore.2 found hlook).2 d0 hset
      rw [htrace, dispatched_append] at hnone
      simp [dispatched] at hnone
    · exact ⟨sp, d, hone⟩

/-- C3 at the inputs of the specification: with `fromAddress = a@b.com`, a
message without a sender address is dispatched with `a@b.com`, and a message
from `c@d.com` keeps `c@d.com` (and takes the configured name). -/
theorem sender_backfill_witness :
    (∃ sp d, dispatched (sampleSender.SendEmail sampleConstants sampleLib servingNet sampleClock
        sampleContext sampleEmail).trace = [(sp, d)] ∧ d.From = "a@b.com") ∧
    (∃ sp d, dispatched (sampleSender.SendEmail sampleConstants sampleLib servingNet sampleClock
        sampleContext { sampleEmail with From := "c@d.com" }).trace = [(sp, d)] ∧
      d.From = "c@d.com" ∧ d.FromName = "Acme") := by
  constructor
  · have h := sender_backfill sampleConstants sampleLib servingNet sampleClock sampleSender
      sampleContext sampleEmail sampleConfiguration (by decide) (by rfl) (by rfl)
    obtain ⟨sp, d, hdisp⟩ := h.2.1 _ _ rfl rfl
    refine ⟨sp, d, hdisp, ?_⟩
    exact (h.1 (sp, d) (by rw [hdisp]; exact List.mem_singleton.mpr rfl)).1 rfl
  · have h := sender_backfill sampleConstants sampleLib servingNet sampleClock sampleSender
      sampleContext { sampleEmail with From := "c@d.com" } sampleConfiguration (by decide)
      (by rfl) (by rfl)
    obtain ⟨sp, d, hdisp⟩ := h.2.1 _ _ rfl rfl
    have hp := h.1 (sp, d) (by rw [hdisp]; exact List.mem_singleton.mpr rfl)
    exact ⟨sp, d, hdisp, hp.2.1 (by decide), hp.2.2.1 rfl⟩

/-! ## C4: an unverified configuration -/

/-- C4.  For a message with a non-empty namespace whose resolved
configuration has `IsDomainAuthenticated = false`, `SendEmail` returns
`ErrConfigurationNotValid`; its effects are those of the resolution alone, none
of them a call of `Send`, an SMTP submission or a request other than a GET;
and the cache of provider clients is left as it was. -/
theorem unverified_configuration_rejected (K : Constants) (lib : Lib) (net : Net) (clk : Clock)
    (e : ConfigServiceEmailSender) (ctx : Context) (emailData : EmailData)
    (cfg : EmailSenderConfiguration)
    (hns : emailData.Namespace ≠ "")
    (hcfg : (e.ConfigServiceProxy.GetEmailSenderConfiguration lib net clk.configGet clk.configSet
      ctx emailData.Namespace).outcome = Exec.done (some cfg, none))
    (hver : cfg.IsDomainAuthenticated = false) :
    (e.SendEmail K lib net clk ctx emailData).outcome
      = Exec.done (some GoError.ErrConfigurationNotValid) ∧
    (e.SendEmail K lib net clk ctx emailData).trace
      = (e.ConfigServiceProxy.GetEmailSenderConfiguration lib net clk.configGet clk.configSet
          ctx emailData.Namespace).trace ∧
    (∀ ev ∈ (e.SendEmail K lib net clk ctx emailData).trace, ev.isProvider = false) ∧
    dispatched (e.SendEmail K lib net clk ctx emailData).trace = [] ∧
    (e.SendEmail K lib net clk ctx emailData).sender.SenderPlatformCache
      = e.SenderPlatformCache := by
  have hq := get_trace_quiet lib net e.ConfigServiceProxy ctx emailData.Namespace clk.configGet
    clk.configSet
  have hrun : e.SendEmail K lib net clk ctx emailData
      = { outcome := Exec.done (some GoError.ErrConfigurationNotValid),
          sender := { e with ConfigServiceProxy :=
            (e.ConfigServiceProxy.GetEmailSenderConfiguration lib net clk.configGet clk.configSet
              ctx emailData.Namespace).proxy },
          trace := (e.ConfigServiceProxy.GetEmailSenderConfiguration lib net clk.configGet
            clk.configSet ctx emailData.Namespace).trace } := by
    unfold ConfigServiceEmailSender.SendEmail
    simp only [hns, if_false, hcfg, hver, Bool.not_false, if_true]
  rw [hrun]
  exact ⟨rfl, rfl, fun ev hev => (hq ev hev).1, dispatched_of_quiet _ hq, rfl⟩

/-- C4 at a concrete input: the service serves the sample configuration with
the verification flag off. -/
theorem unverified_configuration_rejected_witness :
    (sampleSender.SendEmail sampleConstants unverifiedLib
        servingNet sampleClock sampleContext sampleEmail).outcome
      = Exec.done (some GoError.ErrConfigurationNotValid) ∧
    dispatched (sampleSender.SendEmail sampleConstants unverifiedLib
        servingNet sampleClock sampleContext sampleEmail).trace = [] := by
  have h := unverified_configuration_rejected sampleConstants unverifiedLib
    servingNet sampleClock sampleSender sampleContext sampleEmail
    { sampleConfiguration with IsDomainAuthenticated := false } (by decide) (by rfl) (by rfl)
  exact ⟨h.1, h.2.2.2.1⟩

/-! ## C5 and C6: the answers of the configuration service -/

theorem fetch_of_response (lib : Lib) (net : Net) (e : APIProxy) (ctx : Context)
    (tenant token : String) (status : Nat) (body : String)
    (htok : ctx.ServiceAccessToken = Value.str token) (hne : token ≠ "")
    (hresp : net.http
      { method := "GET"
        url := getEmailSenderConfigurationPath e.Host tenant
        headers := [("Authorization", "Bearer " ++ token)]
        body := none } = HTTPOutcome.response status (Except.ok body)) :
    (e.fetchEmailSenderConfiguration lib net ctx tenant).outcome =
      Exec.done
        (if status ≠ 200 then
          if status = 404 then
            match lib.unmarshalErrorEntity body with
            | Except.error _ => Except.error (GoError.errorsNew body)
            | Except.ok errorEntity =>
              if errorEntity.ErrorCode = 20008 then Except.error GoError.ErrNotFound
              else Except.error (GoError.errorsNew body)
          else Except.error (GoError.errorsNew body)
        else
          match lib.unmarshalEmailSenderConfiguration body with
          | Except.error err =>
            Except.error
              (GoError.errorsNew ("unable to unmarshal json EmailSenderConfiguration: " ++ err))
          | Except.ok emailSenderConfig => Except.ok emailSenderConfig) := by
  unfold APIProxy.fetchEmailSenderConfiguration getAccessTokenFromContext
  simp only [htok, hne, if_false, hresp]

theorem get_of_miss (lib : Lib) (net : Net) (e : APIProxy) (ctx : Context)
    (tenant : String) (tGet tSet : Int) (h : e.Cache.Get tGet tenant = none) :
    (∀ err, (e.fetchEmailSenderConfiguration lib net ctx tenant).outcome
        = Exec.done (Except.error err) →
      (e.GetEmailSenderConfiguration lib net tGet tSet ctx tenant).outcome
          = Exec.done (none, if err = GoError.ErrNotFound then none else some err) ∧
        (e.GetEmailSenderConfiguration lib net tGet tSet ctx tenant).proxy = e) ∧
    (∀ r, (e.fetchEmailSenderConfiguration lib net ctx tenant).outcome = Exec.panicked r →
      (e.GetEmailSenderConfiguration lib net tGet tSet ctx tenant).outcome = Exec.panicked r ∧
        (e.GetEmailSenderConfiguration lib net tGet tSet ctx tenant).proxy = e) ∧
    (∀ cfg, (e.fetchEmailSenderConfiguration lib net ctx tenant).outcome
        = Exec.done (Except.ok cfg) →
      (e.GetEmailSenderConfiguration lib net tGet tSet ctx tenant).outcome
          = Exec.done (some cfg, none) ∧
        (e.GetEmailSenderConfiguration lib net tGet tSet ctx tenant).proxy
          = { e with Cache := e.Cache.Set tSet tenant cfg 0 }) := by
  unfold APIProxy.GetEmailSenderConfiguration
  rw [h]
  simp only []
  refine ⟨?_, ?_, ?_⟩
  · intro err herr
    rw [herr]
    simp only []
    split <;> exact ⟨rfl, rfl⟩
  · intro r hr
    rw [hr]
    exact ⟨rfl, rfl⟩
  · intro cfg hc
    rw [hc]
    exact ⟨rfl, rfl⟩

/-- C5.  When the tenant is not in the cache, the context carries a token,
and the configuration service answers the lookup with status 404 and a body
that decodes to an error entity with `errorCode` 20008, then
`GetEmailSenderConfiguration` returns a nil configuration and a nil error and
stores nothing, and `SendEmail` for a message of that tenant returns
`ErrConfigurationNotFound`, performs no work of a provider client (no `Send`,
no SMTP submission, no request other than a GET) and leaves the sender as it
was. -/
theorem not_found_resolution (K : Constants) (lib : Lib) (net : Net) (clk : Clock)
    (e : ConfigServiceEmailSender) (ctx : Context) (emailData : EmailData)
    (token body : String) (errorEntity : ErrorEntity)
    (hns : emailData.Namespace ≠ "")
    (hmiss : e.ConfigServiceProxy.Cache.Get clk.configGet emailData.Namespace = none)
    (htok : ctx.ServiceAccessToken = Value.str token) (hne : token ≠ "")
    (hresp : net.http
      { method := "GET"
        url := getEmailSenderConfigurationPath e.ConfigServiceProxy.Host emailData.Namespace
        headers := [("Authorization", "Bearer " ++ token)]
        body := none } = HTTPOutcome.response 404 (Except.ok body))
    (hbody : lib.unmarshalErrorEntity body = Except.ok errorEntity)
    (hcode : errorEntity.ErrorCode = 20008) :
    (e.ConfigServiceProxy.GetEmailSenderConfiguration lib net clk.configGet clk.configSet ctx
        emailData.Namespace).outcome = Exec.done (none, none) ∧
    (e.ConfigServiceProxy.GetEmailSenderConfiguration lib net clk.configGet clk.configSet ctx
        emailData.Namespace).proxy = e.ConfigServiceProxy ∧
    (e.SendEmail K lib net clk ctx emailData).outcome
      = Exec.done (some GoError.ErrConfigurationNotFound) ∧
    (∀ ev ∈ (e.SendEmail K lib net clk ctx emailData).trace, ev.isProvider = false) ∧
    dispatched (e.SendEmail K lib net clk ctx emailData).trace = [] ∧
    (e.SendEmail K lib net clk ctx emailData).sender = e := by
  have hfetch := fetch_of_response lib net e.ConfigServiceProxy ctx emailData.Namespace token 404
    body htok hne hresp
  simp only [hbody, hcode, if_true, ne_eq, Nat.reduceEqDiff, not_false_eq_true] at hfetch
  have hget := (get_of_miss lib net e.ConfigServiceProxy ctx emailData.Namespace clk.configGet
    clk.configSet hmiss).1 _ hfetch
  simp only [if_true] at hget
  have hq := get_trace_quiet lib net e.ConfigServiceProxy ctx emailData.Namespace clk.configGet
    clk.configSet
  have hrun : e.SendEmail K lib net clk ctx emailData
      = { outcome := Exec.done (some GoError.ErrConfigurationNotFound),
          sender := e,
          trace := (e.ConfigServiceProxy.GetEmailSenderConfiguration lib net clk.configGet
            clk.configSet ctx emailData.Namespace).trace } := by
    unfold ConfigServiceEmailSender.SendEmail
    simp only [hns, if_false, hget.1, hget.2]
  rw [hrun]
  exact ⟨hget.1, hget.2, rfl, fun ev hev => (hq ev hev).1, dispatched_of_quiet _ hq, rfl⟩

/-- C5 at the input of the specification: status 404 with the body
`errorCode 20008, errorMessage "not found"`. -/
theorem not_found_resolution_witness :
    (sampleSender.ConfigServiceProxy.GetEmailSenderConfiguration sampleLib
        (constantNet 404 notFoundBody) sampleClock.configGet sampleClock.configSet sampleContext
        "acme").outcome = Exec.done (none, none) ∧
    (sampleSender.SendEmail sampleConstants sampleLib (constantNet 404 notFoundBody) sampleClock
        sampleContext sampleEmail).outcome
      = Exec.done (some GoError.ErrConfigurationNotFound) := by
  have h := not_found_resolution sampleConstants sampleLib (constantNet 404 notFoundBody)
    sampleClock sampleSender sampleContext sampleEmail "token" notFoundBody
    { ErrorCode := 20008, ErrorMessage := "not found" } (by decide) (by rfl) (by rfl) (by decide)
    (by rfl) (by rfl) (by rfl)
  exact ⟨h.1, h.2.2.1⟩

/-- C6.  When the context carries a token and the configuration service
answers the lookup with a readable body and a status that is not 200, and the
answer is not a 404 whose body decodes to an error entity with `errorCode`
20008 (so: any other status, a 404 whose body decodes with another code, or a
404 whose body does not decode), then `fetchEmailSenderConfiguration` returns
the error `errors.New(body)`, whose text is exactly the response body, and
`GetEmailSenderConfiguration`, on a cache miss, returns a nil configuration
with that same error (not the nil, nil of NotFound) and stores nothing. -/
theorem error_response_surfaced (lib : Lib) (net : Net) (e : APIProxy) (ctx : Context)
    (tenant token : String) (status : Nat) (body : String) (tGet tSet : Int)
    (htok : ctx.ServiceAccessToken = Value.str token) (hne : token ≠ "")
    (hresp : net.http
      { method := "GET"
        url := getEmailSenderConfigurationPath e.Host tenant
        headers := [("Authorization", "Bearer " ++ token)]
        body := none } = HTTPOutcome.response status (Except.ok body))
    (hstatus : status ≠ 200)
    (hnot : ¬ (status = 404 ∧
      ∃ errorEntity, lib.unmarshalErrorEntity body = Except.ok errorEntity ∧
        errorEntity.ErrorCode = 20008)) :
    (e.fetchEmailSenderConfiguration lib net ctx tenant).outcome
      = Exec.done (Except.error (GoError.errorsNew body)) ∧
    (e.Cache.Get tGet tenant = none →
      (e.GetEmailSenderConfiguration lib net tGet tSet ctx tenant).outcome
        = Exec.done (none, some (GoError.errorsNew body)) ∧
      (e.GetEmailSenderConfiguration lib net tGet tSet ctx tenant).proxy = e) := by
  have hfetch : (e.fetchEmailSenderConfiguration lib net ctx tenant).outcome
      = Exec.done (Except.error (GoError.errorsNew body)) := by
    rw [fetch_of_response lib net e ctx tenant token status body htok hne hresp]
    simp only [ne_eq, hstatus, not_false_eq_true, if_true]
    by_cases h404 : status = 404
    · simp only [h404, if_true]
      cases hdec : lib.unmarshalErrorEntity body with
      | error err => rfl
      | ok errorEntity =>
        have hcode : errorEntity.ErrorCode ≠ 20008 :=
          fun hc => hnot ⟨h404, errorEntity, hdec, hc⟩
        simp only [hcode, if_false]
    · simp only [h404, if_false]
  refine ⟨hfetch, ?_⟩
  intro hmiss
  have hget := (get_of_miss lib net e ctx tenant tGet tSet hmiss).1 _ hfetch
  simpa using hget

/-- C6 at three concrete answers: status 500; status 404 with `errorCode`
20001; status 404 with a body that is not JSON.  Each time the error returned
carries the body as it came. -/
theorem error_response_surfaced_witness :
    ((NewConfigServiceProxy "h" 60).GetEmailSenderConfiguration sampleLib
        (constantNet 500 "internal error") 1700000000000000000 1700000000200000000
        sampleContext "acme").outcome
      = Exec.done (none, some (GoError.errorsNew "internal error")) ∧
    ((NewConfigServiceProxy "h" 60).GetEmailSenderConfiguration sampleLib
        (constantNet 404 "\x7b\"errorCode\":20001,\"errorMessage\":\"unauthorized\"\x7d")
        1700000000000000000 1700000000200000000 sampleContext "acme").outcome
      = Exec.done (none, some (GoError.errorsNew
          "\x7b\"errorCode\":20001,\"errorMessage\":\"unauthorized\"\x7d")) ∧
    ((NewConfigServiceProxy "h" 60).GetEmailSenderConfiguration sampleLib
        (constantNet 404 "<html>not found</html>") 1700000000000000000 1700000000200000000
        sampleContext "acme").outcome
      = Exec.done (none, some (GoError.errorsNew "<html>not found</html>")) := by
  refine ⟨?_, ?_, ?_⟩
  · exact ((error_response_surfaced sampleLib (constantNet 500 "internal error")
      (NewConfigServiceProxy "h" 60) sampleContext "acme" "token" 500 "internal error"
      1700000000000000000 1700000000200000000 rfl (by decide) rfl (by decide)
      (by intro h; exact absurd h.1 (by decide))).2 rfl).1
  · exact ((error_response_surfaced sampleLib
      (constantNet 404 "\x7b\"errorCode\":20001,\"errorMessage\":\"unauthorized\"\x7d")
      (NewConfigServiceProxy "h" 60) sampleContext "acme" "token" 404
      "\x7b\"errorCode\":20001,\"errorMessage\":\"unauthorized\"\x7d"
      1700000000000000000 1700000000200000000 rfl (by decide) rfl (by decide)
      (by
        rintro ⟨_, errorEntity, hdec, hcode⟩
        have h20001 : sampleLib.unmarshalErrorEntity
            "\x7b\"errorCode\":20001,\"errorMessage\":\"unauthorized\"\x7d"
            = Except.ok { ErrorCode := 20001, ErrorMessage := "unauthorized" } := by rfl
        rw [h20001] at hdec
        injection hdec with hdec
        subst hdec
        exact absurd hcode (by decide))).2 rfl).1
  · exact ((error_response_surfaced sampleLib (constantNet 404 "<html>not found</html>")
      (NewConfigServiceProxy "h" 60) sampleContext "acme" "token" 404 "<html>not found</html>"
      1700000000000000000 1700000000200000000 rfl (by decide) rfl (by decide)
      (by
        rintro ⟨_, errorEntity, hdec, _⟩
        have hbad : sampleLib.unmarshalErrorEntity "<html>not found</html>"
            = Except.error "invalid character" := by rfl
        rw [hbad] at hdec
        exact absurd hdec (by simp))).2 rfl).1

/-! ## C7: the default merge variables -/

/-- The map after the copyright year is injected into `m0`. -/
theorem year_injected (ck : String) (year : Int) (m0 : GoMap Value) :
    ∃ m1 : GoMap Value,
      (match m0.get ck with
        | some _ => m0
        | none => m0.set ck (Value.int year)) = m1 ∧
      (∀ v, m0.get ck = some v → m1 = m0) ∧
      (m0.get ck = none → m1 = m0.set ck (Value.int year)) ∧
      (∃ v, m1.get ck = some v) := by
  cases h : m0.get ck with
  | none =>
    refine ⟨m0.set ck (Value.int year), rfl, ?_, fun _ => rfl, ?_⟩
    · intro v hv
      exact absurd hv (by simp)
    · exact ⟨_, GoMap.get_set_self _ _ _⟩
  | some v =>
    refine ⟨m0, rfl, fun _ _ => rfl, ?_, ⟨v, h⟩⟩
    intro hv
    exact absurd hv (by simp)

/-- What a completed `SetTemplateAdditionalData` has done: with `m1` the map
after the injection of the year, either the language tag is absent, nil or
empty and the result holds `m1`, or it is a non-empty string `L` and the result
holds `m1` with `L` set to `true`. -/
theorem setTemplate_done (K : Constants) (year : Int) (d d' : EmailData)
    (hdone : d.SetTemplateAdditionalData K year = Exec.done d') :
    ∃ m1 : GoMap Value,
      (∀ v, (d.XMCMergeVars.getD []).get K.CopyrightYearTemplateKey = some v →
        m1 = d.XMCMergeVars.getD []) ∧
      ((d.XMCMergeVars.getD []).get K.CopyrightYearTemplateKey = none →
        m1 = (d.XMCMergeVars.getD []).set K.CopyrightYearTemplateKey (Value.int year)) ∧
      (∃ v, m1.get K.CopyrightYearTemplateKey = some v) ∧
      (((m1.get K.LanguageTagTemplateKey = none ∨
          m1.get K.LanguageTagTemplateKey = some Value.nil ∨
          m1.get K.LanguageTagTemplateKey = some (Value.str "")) ∧
        d' = { d with XMCMergeVars := some m1 }) ∨
       (∃ L, L ≠ "" ∧ m1.get K.LanguageTagTemplateKey = some (Value.str L) ∧
        d' = { d with XMCMergeVars := some (m1.set L (Value.bool true)) })) := by
  have hm0 : (match d.XMCMergeVars with
      | none => []
      | some m => m) = d.XMCMergeVars.getD [] := by
    cases d.XMCMergeVars <;> rfl
  unfold EmailData.SetTemplateAdditionalData at hdone
  simp only [hm0] at hdone
  obtain ⟨m1, hm1, hpres, habs, hhas⟩ :=
    year_injected K.CopyrightYearTemplateKey year (d.XMCMergeVars.getD [])
  rw [hm1] at hdone
  refine ⟨m1, hpres, habs, hhas, ?_⟩
  cases hl : m1.get K.LanguageTagTemplateKey with
  | none =>
    simp only [hl, Option.getD_none, Exec.done.injEq] at hdone
    exact Or.inl ⟨Or.inl rfl, hdone.symm⟩
  | some v =>
    cases v with
    | nil =>
      simp only [hl, Option.getD_some, Exec.done.injEq] at hdone
      exact Or.inl ⟨Or.inr (Or.inl rfl), hdone.symm⟩
    | str L =>
      simp only [hl, Option.getD_some] at hdone
      by_cases hL : L = ""
      · simp only [hL, ne_eq, not_true_eq_false, if_false, Exec.done.injEq] at hdone
        exact Or.inl ⟨Or.inr (Or.inr (by rw [hL])), hdone.symm⟩
      · simp only [ne_eq, hL, not_false_eq_true, if_true, Exec.done.injEq] at hdone
        exact Or.inr ⟨L, hL, rfl, hdone.symm⟩
    | int n => simp [hl] at hdone
    | bool b => simp [hl] at hdone
    | other j t => simp [hl] at hdone

/-- `SetTemplateAdditionalData` on a message whose map already holds the
copyright-year key. -/
theorem setTemplate_of_present (K : Constants) (year : Int) (d : EmailData) (m : GoMap Value)
    (v : Value) (hm : d.XMCMergeVars = some m)
    (hck : m.get K.CopyrightYearTemplateKey = some v) :
    d.SetTemplateAdditionalData K year =
      match (m.get K.LanguageTagTemplateKey).getD Value.nil with
      | Value.nil => Exec.done d
      | Value.str language =>
        if language ≠ "" then
          Exec.done { d with XMCMergeVars := some (m.set language (Value.bool true)) }
        else Exec.done d
      | _ => Exec.panicked "interface conversion: interface {} is not string" := by
  have hd : { d with XMCMergeVars := some m } = d := by
    cases d
    simp only at hm
    subst hm
    rfl
  unfold EmailData.SetTemplateAdditionalData
  simp only [hm, hck, hd]

/-- The language tag read after the year is injected is the caller's, when it
is a string. -/
theorem language_of_caller (ck lk : String) (year : Int) (m0 m1 : GoMap Value) (L : String)
    (hpres : ∀ v, m0.get ck = some v → m1 = m0)
    (habs : m0.get ck = none → m1 = m0.set ck (Value.int year))
    (hl : m1.get lk = some (Value.str L)) : m0.get lk = some (Value.str L) := by
  cases h : m0.get ck with
  | some v =>
    rw [hpres v h] at hl
    exact hl
  | none =>
    rw [habs h] at hl
    by_cases hk : ck = lk
    · subst hk
      rw [GoMap.get_set_self] at hl
      simp at hl
    · rw [GoMap.get_set_ne _ _ _ _ hk] at hl
      exact hl

/-- C7, as amended.  For every message on which `SetTemplateAdditionalData`
completes: afterwards `XMCMergeVars` is non-nil and contains the
copyright-year key; provided the language-tag value is not the copyright-year
key itself, the value under that key is the current year if the key was
absent before the call (a nil map included) and is left unchanged if it was
present; and provided the language-tag value is not the language-tag key
itself, a second injection (at any later year) completes and gives the same
message as the first. -/
theorem default_injection (K : Constants) (year year2 : Int) (d d' : EmailData)
    (hdone : d.SetTemplateAdditionalData K year = Exec.done d') :
    (∃ m, d'.XMCMergeVars = some m ∧ ∃ v, m.get K.CopyrightYearTemplateKey = some v) ∧
    ((d.XMCMergeVars.getD []).get K.LanguageTagTemplateKey
        ≠ some (Value.str K.CopyrightYearTemplateKey) →
      ((d.XMCMergeVars.getD []).get K.CopyrightYearTemplateKey = none →
        (d'.XMCMergeVars.getD []).get K.CopyrightYearTemplateKey = some (Value.int year)) ∧
      (∀ v, (d.XMCMergeVars.getD []).get K.CopyrightYearTemplateKey = some v →
        (d'.XMCMergeVars.getD []).get K.CopyrightYearTemplateKey = some v)) ∧
    ((d.XMCMergeVars.getD []).get K.LanguageTagTemplateKey
        ≠ some (Value.str K.LanguageTagTemplateKey) →
      d'.SetTemplateAdditionalData K year2 = Exec.done d') := by
  obtain ⟨m1, hpres, habs, ⟨v1, hv1⟩, hcase⟩ := setTemplate_done K year d d' hdone
  have hyear : (d.XMCMergeVars.getD []).get K.CopyrightYearTemplateKey = none →
      m1.get K.CopyrightYearTemplateKey = some (Value.int year) := by
    intro h
    rw [habs h, GoMap.get_set_self]
  have hkeep : ∀ v, (d.XMCMergeVars.getD []).get K.CopyrightYearTemplateKey = some v →
      m1.get K.CopyrightYearTemplateKey = some v := by
    intro v h
    rw [hpres v h]
    exact h
  rcases hcase with ⟨hlang, hd'⟩ | ⟨L, hL, hlang, hd'⟩
  · have hmap : d'.XMCMergeVars = some m1 := by rw [hd']
    refine ⟨⟨m1, hmap, v1, hv1⟩, ?_, ?_⟩
    · intro _
      rw [hmap]
      exact ⟨hyear, hkeep⟩
    · intro _
      rw [setTemplate_of_present K year2 d' m1 v1 hmap hv1]
      rcases hlang with h | h | h <;> simp [h]
  · have hmap : d'.XMCMergeVars = some (m1.set L (Value.bool true)) := by rw [hd']
    have hcaller := language_of_caller K.CopyrightYearTemplateKey K.LanguageTagTemplateKey year
      (d.XMCMergeVars.getD []) m1 L hpres habs hlang
    have hhas : ∃ v, (m1.set L (Value.bool true)).get K.CopyrightYearTemplateKey = some v := by
      by_cases hk : L = K.CopyrightYearTemplateKey
      · subst hk
        exact ⟨_, GoMap.get_set_self _ _ _⟩
      · rw [GoMap.get_set_ne _ _ _ _ hk]
        exact ⟨v1, hv1⟩
    refine ⟨⟨_, hmap, hhas⟩, ?_, ?_⟩
    · intro hprov
      have hk : L ≠ K.CopyrightYearTemplateKey := by
        intro hk
        apply hprov
        rw [hcaller, hk]
      rw [hmap]
      simp only [Option.getD_some, GoMap.get_set_ne _ _ _ _ hk]
      exact ⟨hyear, hkeep⟩
    · intro hprov
      have hk : L ≠ K.LanguageTagTemplateKey := by
        intro hk
        apply hprov
        rw [hcaller, hk]
      obtain ⟨v, hv⟩ := hhas
      rw [setTemplate_of_present K year2 d' _ v hmap hv]
      simp only [GoMap.get_set_ne _ _ _ _ hk, hlang, Option.getD_some, ne_eq, hL,
        not_false_eq_true, if_true]
      rw [GoMap.set_eq_self _ _ _ (GoMap.get_set_self _ _ _)]
      have hd : { d' with XMCMergeVars := some (m1.set L (Value.bool true)) } = d' := by
        cases d'
        simp only at hmap
        subst hmap
        rfl
      rw [hd]

/-- C7 at the input of the specification: a message built with no merge
variables holds, after injection in 2023, the copyright year 2023, and a
second injection in 2024 changes nothing. -/
theorem default_injection_witness :
    ∃ d', sampleEmail.SetTemplateAdditionalData sampleConstants 2023 = Exec.done d' ∧
      (d'.XMCMergeVars.getD []).get "copyrightYear" = some (Value.int 2023) ∧
      d'.SetTemplateAdditionalData sampleConstants 2024 = Exec.done d' := by
  have h := default_injection sampleConstants 2023 2024 sampleEmail _ rfl
  exact ⟨_, rfl, (h.2.1 (by intro h; cases h)).1 rfl, h.2.2 (by intro h; cases h)⟩

/-- C7 as stated fails.  (1) A message whose language tag is the string
`copyrightYear` and that has no copyright year: the injection completes and
the copyright-year entry is `true`, not the current year.  (2) The same with a
caller-supplied copyright year 1999: the entry is overwritten with `true`.
(3) A message whose language tag is the string `languageTag`: the first
injection completes and stores `true` under the language-tag key, and a second
injection panics instead of giving the same map. -/
theorem default_injection_counterexample :
    (∃ d', EmailData.SetTemplateAdditionalData sampleConstants 2023
        (emailWithVars [("languageTag", Value.str "copyrightYear")]) = Exec.done d' ∧
      (d'.XMCMergeVars.getD []).get "copyrightYear" = some (Value.bool true)) ∧
    (∃ d', EmailData.SetTemplateAdditionalData sampleConstants 2023
        (emailWithVars
          [("copyrightYear", Value.int 1999), ("languageTag", Value.str "copyrightYear")])
          = Exec.done d' ∧
      (d'.XMCMergeVars.getD []).get "copyrightYear" = some (Value.bool true)) ∧
    (∃ d', EmailData.SetTemplateAdditionalData sampleConstants 2023
        (emailWithVars [("languageTag", Value.str "languageTag")]) = Exec.done d' ∧
      d'.SetTemplateAdditionalData sampleConstants 2023
        = Exec.panicked "interface conversion: interface {} is not string") := by
  refine ⟨⟨_, rfl, rfl⟩, ⟨_, rfl, rfl⟩, ⟨_, rfl, rfl⟩⟩

/-! ## C8: the static sender -/

/-- C8, as amended.  For every static sender and every message on which
`SetTemplateAdditionalData` completes, `StaticEmailSender.SendEmail` hands
exactly one message to a provider client, the sender's own; that message has
the sender's `FromAddress` and `FromName` as `From` and `FromName`, whatever
the caller's were, and the caller's `Namespace`, `To`, `Subject`, `ReplyTo`,
`XMCTemplate`, `Categories` and `CarbonCopy`; and `SendEmail` returns what the
client's `Send` returns. -/
theorem static_send (K : Constants) (lib : Lib) (net : Net) (year : Int)
    (e : StaticEmailSender) (emailData d0 : EmailData)
    (hdone : emailData.SetTemplateAdditionalData K year = Exec.done d0) :
    ∃ d, dispatched (e.SendEmail K lib net year emailData).trace = [(e.SenderPlatform, d)] ∧
      (e.SendEmail K lib net year emailData).outcome
        = Exec.done (e.SenderPlatform.Send lib net d).result ∧
      d.From = e.FromAddress ∧ d.FromName = e.FromName ∧
      d.Namespace = emailData.Namespace ∧ d.To = emailData.To ∧
      d.Subject = emailData.Subject ∧ d.ReplyTo = emailData.ReplyTo ∧
      d.XMCTemplate = emailData.XMCTemplate ∧ d.Categories = emailData.Categories ∧
      d.CarbonCopy = emailData.CarbonCopy ∧ d.XMCMergeVars = d0.XMCMergeVars := by
  have hfields := setTemplate_fields K year emailData d0 hdone
  refine ⟨{ d0 with From := e.FromAddress, FromName := e.FromName }, ?_, ?_, rfl, rfl, ?_⟩
  · unfold StaticEmailSender.SendEmail
    rw [hdone]
    simp only [dispatched, dispatched_send_trace]
  · unfold StaticEmailSender.SendEmail
    rw [hdone]
  · rw [hfields]
    exact ⟨rfl, rfl, rfl, rfl, rfl, rfl, rfl, rfl⟩

/-- C8 at a concrete input: a message that names its own sender is
dispatched once, from the address and name of the static sender. -/
theorem static_send_witness :
    ∃ d, dispatched (sampleStaticSender.SendEmail sampleConstants sampleLib servingNet 2023
        { sampleEmail with From := "c@d.com", FromName := "Caller" }).trace
        = [(sampleStaticSender.SenderPlatform, d)] ∧
      d.From = "noreply@acme.com" ∧ d.FromName = "Acme" ∧ d.To = "x@y.com" := by
  obtain ⟨d, hdisp, _, hfrom, hname, _, hto, _⟩ :=
    static_send sampleConstants sampleLib servingNet 2023 sampleStaticSender
      { sampleEmail with From := "c@d.com", FromName := "Caller" } _ rfl
  exact ⟨d, hdisp, hfrom, hname, hto⟩

/-- C8 as stated fails: on a message whose language tag is the number 5 the
static sender panics in `SetTemplateAdditionalData`; nothing is handed to the
provider and no result is returned. -/
theorem static_send_counterexample :
    (sampleStaticSender.SendEmail sampleConstants sampleLib servingNet 2023
        (emailWithVars [("languageTag", Value.int 5)])).outcome
      = Exec.panicked "interface conversion: interface {} is not string" ∧
    (sampleStaticSender.SendEmail sampleConstants sampleLib servingNet 2023
        (emailWithVars [("languageTag", Value.int 5)])).trace = [] := by
  exact ⟨rfl, rfl⟩
/-! ## C9: construction of the static sender -/

/-- The part of C9 the code keeps: construction fails, with the error that
names the variable, when `APP_EMAIL_SENDER_NAME` is missing, when
`FROM_EMAIL_ADDRESS` is missing, and when the provider is `sendgrid` and
`SENDGRID_API_KEY` is missing. -/
theorem static_required_variables (K : Constants) (lib : Lib) (Getenv : String → String) :
    (Getenv "APP_EMAIL_SENDER_NAME" = "" →
      NewStaticEmailSender K lib Getenv = Except.error
        (GoError.errorsNew "APP_EMAIL_SENDER_NAME environment variable is not set")) ∧
    (Getenv "APP_EMAIL_SENDER_NAME" ≠ "" → Getenv "FROM_EMAIL_ADDRESS" = "" →
      NewStaticEmailSender K lib Getenv = Except.error
        (GoError.errorsNew "FROM_EMAIL_ADDRESS environment variable is not set")) ∧
    (Getenv "APP_EMAIL_SENDER_NAME" = sendgrid.PlatformID → Getenv "FROM_EMAIL_ADDRESS" ≠ "" →
      Getenv "SENDGRID_API_KEY" = "" →
      NewStaticEmailSender K lib Getenv = Except.error
        (GoError.errorsNew "SENDGRID_API_KEY environment variable is not set")) := by
  refine ⟨?_, ?_, ?_⟩
  · intro h
    unfold NewStaticEmailSender
    simp only [h, if_true]
  · intro h1 h
    unfold NewStaticEmailSender
    simp only [h1, h, if_true, if_false]
  · intro h h2 hkey
    unfold NewStaticEmailSender
    simp only [h, h2, hkey, if_true, sendgrid.PlatformID, String.reduceEq, if_false]

/-- C9, what the code does instead for `mandrill`: when the provider selected
is `mandrill`, the sender address is set, `MANDRILL_API_KEY` is not set and the
port is absent or an integer, construction succeeds with an SMTP client,
whatever `MANDRILL_USERNAME` and `MANDRILL_PASSWORD` are, empty included: the
branch that reports missing mandrill variables is never taken. -/
theorem mandrill_credentials_not_required (K : Constants) (lib : Lib) (Getenv : String → String)
    (port : Int)
    (hsel : Getenv "APP_EMAIL_SENDER_NAME" = K.mandrillPlatformID)
    (hne : K.mandrillPlatformID ≠ "")
    (hsg : K.mandrillPlatformID ≠ sendgrid.PlatformID)
    (hfrom : Getenv "FROM_EMAIL_ADDRESS" ≠ "")
    (hkey : Getenv "MANDRILL_API_KEY" = "")
    (hport : (if Getenv "MANDRILL_SMTP_PORT" ≠ "" then lib.Atoi (Getenv "MANDRILL_SMTP_PORT")
      else some 587) = some port) :
    NewStaticEmailSender K lib Getenv = Except.ok
      { SenderPlatform := mandrill.NewMandrillClientWithSMTP
          (if Getenv "MANDRILL_SMTP_HOST" ≠ "" then Getenv "MANDRILL_SMTP_HOST"
            else "smtp.mandrillapp.com")
          port (Getenv "MANDRILL_USERNAME") (Getenv "MANDRILL_PASSWORD")
        FromAddress := Getenv "FROM_EMAIL_ADDRESS"
        FromName := Getenv "FROM_EMAIL_NAME" } := by
  have hhost : (if Getenv "MANDRILL_SMTP_HOST" ≠ "" then Getenv "MANDRILL_SMTP_HOST"
      else "smtp.mandrillapp.com") ≠ "" := by
    by_cases h : Getenv "MANDRILL_SMTP_HOST" = ""
    · simp [h]
    · simp [h]
  unfold NewStaticEmailSender
  simp only [hsel, hne, hsg, hfrom, if_false, if_true, hport, hkey, ne_eq, not_true_eq_false,
    and_false, hhost, not_false_eq_true, true_or]

/-- C9 at the failing input: `APP_EMAIL_SENDER_NAME=mandrill` and
`FROM_EMAIL_ADDRESS` set, no API key, no user name, no password.  The
constructor returns a sender (an SMTP client with empty credentials) and no
error. -/
theorem mandrill_credentials_not_required_witness :
    NewStaticEmailSender sampleConstants sampleLib mandrillOnlyEnv = Except.ok
      { SenderPlatform := mandrill.NewMandrillClientWithSMTP "smtp.mandrillapp.com" 587 "" ""
        FromAddress := "noreply@acme.com"
        FromName := "" } :=
  mandrill_credentials_not_required sampleConstants sampleLib mandrillOnlyEnv 587
    (by decide) (by decide) (by decide) (by decide) (by decide) (by rfl)

/-! ## C10: the SendGrid payload -/

theorem foldl_append_singleton {α β : Type} (f : α → β) (l : List α) (init : List β) :
    l.foldl (fun acc x => acc ++ [f x]) init = init ++ l.map f := by
  induction l generalizing init with
  | nil => simp
  | cons x rest ih => simp [List.foldl, ih]

/-- C10, what the code builds.  For every SendGrid client and every message
the payload of `Send` has two personalization blocks: the first holds the
recipient in `to` and the merge variables in `dynamic_template_data` and has a
nil `cc`; the second holds the carbon-copy addresses in `cc`, in the order of
`EmailData.CarbonCopy`, and has a nil `to` and nil `dynamic_template_data`.
`TemplateID` is `EmailData.XMCTemplate` and `ReplyTo` is set exactly when
`EmailData.ReplyTo` is non-empty.  In the JSON document, accordingly,
`personalizations` is an array of two objects, the first with `cc: null`, the
second with `to: null` and `dynamic_template_data: null`. -/
theorem sendgrid_personalizations (e : sendgrid.MailSender) (emailData : EmailData) :
    (sendgrid.payloadOf e emailData).Personalizations =
      [{ To := some [{ Email := emailData.To, Name := "" }]
         CC := none
         DynamicTemplateData := emailData.XMCMergeVars },
       { To := none
         CC := some (emailData.CarbonCopy.map (fun cc => { Email := cc, Name := "" }))
         DynamicTemplateData := none }] ∧
    (sendgrid.payloadOf e emailData).TemplateID = emailData.XMCTemplate ∧
    ((sendgrid.payloadOf e emailData).ReplyTo ≠ none ↔ emailData.ReplyTo ≠ "") ∧
    (∀ body, (sendgrid.payloadOf e emailData).toJSON = Except.ok body →
      ∃ data, marshalMergeVars emailData.XMCMergeVars = Except.ok data ∧
        body.member "personalizations" = some (JSON.arr
          [JSON.obj [("to", JSON.arr [JSON.obj [("email", JSON.str emailData.To)]]),
              ("cc", JSON.null), ("dynamic_template_data", data)],
           JSON.obj [("to", JSON.null),
              ("cc", JSON.arr (emailData.CarbonCopy.map
                (fun cc => JSON.obj [("email", JSON.str cc)]))),
              ("dynamic_template_data", JSON.null)]]) ∧
        body.member "template_id" = some (JSON.str emailData.XMCTemplate) ∧
        (body.member "reply_to" ≠ none ↔ emailData.ReplyTo ≠ "")) := by
  have hblocks : (sendgrid.payloadOf e emailData).Personalizations =
      [{ To := some [{ Email := emailData.To, Name := "" }]
         CC := none
         DynamicTemplateData := emailData.XMCMergeVars },
       { To := none
         CC := some (emailData.CarbonCopy.map (fun cc => { Email := cc, Name := "" }))
         DynamicTemplateData := none }] := by
    simp [sendgrid.payloadOf, foldl_append_singleton]
  have hreply : (sendgrid.payloadOf e emailData).ReplyTo
      = if emailData.ReplyTo ≠ "" then some { Email := emailData.ReplyTo, Name := "" } else none :=
    rfl
  refine ⟨hblocks, rfl, ?_, ?_⟩
  · rw [hreply]
    by_cases h : emailData.ReplyTo = "" <;> simp [h]
  · intro body hbody
    unfold sendgrid.emailPayload.toJSON at hbody
    rw [hblocks, hreply] at hbody
    simp only [sendgrid.personalizationsToJSON, sendgrid.personalization.toJSON] at hbody
    cases hdata : marshalMergeVars emailData.XMCMergeVars with
    | error err => simp [hdata] at hbody
    | ok data =>
      refine ⟨data, rfl, ?_⟩
      simp only [hdata] at hbody
      simp only [marshalMergeVars] at hbody
      have hTemplate : (sendgrid.payloadOf e emailData).TemplateID = emailData.XMCTemplate := rfl
      rw [hTemplate] at hbody
      by_cases h : emailData.ReplyTo = ""
      · simp only [h, ne_eq, not_true_eq_false, if_false, Except.ok.injEq] at hbody
        subst hbody
        simp [JSON.member, List.lookup, sendgrid.mailsToJSON, sendgrid.mail.toJSON, h]
      · simp only [h, ne_eq, not_false_eq_true, if_true, Except.ok.injEq] at hbody
        subst hbody
        simp [JSON.member, List.lookup, sendgrid.mailsToJSON, sendgrid.mail.toJSON, h]

/-- C10 at a concrete input: the document `Send` posts for a message to
`x@y.com` with one carbon copy to `c@d.com` and no merge variables. -/
theorem sendgrid_personalizations_example :
    ((sendgrid.payloadOf { Host := sendgrid.apiHost, APIKey := "SG.key", DefaultEmailCategories := "" }
        { sampleEmail with CarbonCopy := ["c@d.com"] }).toJSON.toOption.bind
      (fun body => body.member "personalizations")) = some (JSON.arr
        [JSON.obj [("to", JSON.arr [JSON.obj [("email", JSON.str "x@y.com")]]),
            ("cc", JSON.null), ("dynamic_template_data", JSON.null)],
         JSON.obj [("to", JSON.null),
            ("cc", JSON.arr [JSON.obj [("email", JSON.str "c@d.com")]]),
            ("dynamic_template_data", JSON.null)]]) := by
  rfl

/-! ## C11: the status check of the two HTTP clients -/

/-- C11.  For every HTTP response a provider client receives to its POST:
`Send` of the SendGrid client returns nil if and only if the status is 202,
and `Send` of the Mandrill API client returns nil if and only if the status is
200; for every other status whose body can be read, `Send` returns the error
`errors.New(body)`, whose text is exactly the response body.  The Mandrill API
client posts for every message; the SendGrid client posts whenever its payload
marshals, and sends nothing (so receives no response) when it does not. -/
theorem provider_status_check (lib : Lib) (net : Net) (sg : sendgrid.MailSender)
    (md : mandrill.MailSender) (emailData : EmailData) :
    (∀ payloadBytes status body,
      (sendgrid.payloadOf sg emailData).toJSON = Except.ok payloadBytes →
      net.http
        { method := "POST"
          url := sg.Host ++ sendgrid.sendEmailPath
          headers := [("Authorization", "Bearer " ++ sg.APIKey),
            ("Content-Type", "application/json")]
          body := some payloadBytes } = HTTPOutcome.response status body →
      ((sg.Send net emailData).result = none ↔ status = 202) ∧
      (∀ text, status ≠ 202 → body = Except.ok text →
        (sg.Send net emailData).result = some (GoError.errorsNew text))) ∧
    (∀ err, (sendgrid.payloadOf sg emailData).toJSON = Except.error err →
      (sg.Send net emailData).trace = []) ∧
    (∀ status body,
      net.http
        { method := "POST"
          url := md.Host ++ mandrill.sendEmailPath
          headers := [("Content-Type", "application/json")]
          body := some (mandrill.payloadOf lib md emailData).toJSON }
        = HTTPOutcome.response status body →
      ((md.Send lib net emailData).result = none ↔ status = 200) ∧
      (∀ text, status ≠ 200 → body = Except.ok text →
        (md.Send lib net emailData).result = some (GoError.errorsNew text))) := by
  refine ⟨?_, ?_, ?_⟩
  · intro payloadBytes status body hpayload hresp
    have hsg : (sg.Send net emailData).result =
        if status ≠ 202 then
          match body with
          | Except.error errReadResp => some (GoError.library errReadResp)
          | Except.ok errorsResponseBody => some (GoError.errorsNew errorsResponseBody)
        else none := by
      unfold sendgrid.MailSender.Send
      simp only [hpayload, hresp]
      split
      · split <;> rfl
      · rfl
    constructor
    · rw [hsg]
      by_cases h : status = 202
      · simp [h]
      · cases body <;> simp [h]
    · intro text h hb
      rw [hsg, hb]
      simp [h]
  · intro err hpayload
    unfold sendgrid.MailSender.Send
    simp only [hpayload]
  · intro status body hresp
    have hmd : (md.Send lib net emailData).result =
        if status ≠ 200 then
          match body with
          | Except.error errReadResp => some (GoError.library errReadResp)
          | Except.ok errorsResponseBody => some (GoError.errorsNew errorsResponseBody)
        else none := by
      unfold mandrill.MailSender.Send
      simp only [hresp]
      split
      · split <;> rfl
      · rfl
    constructor
    · rw [hmd]
      by_cases h : status = 200
      · simp [h]
      · cases body <;> simp [h]
    · intro text h hb
      rw [hmd, hb]
      simp [h]

/-- C11 at concrete responses: SendGrid accepts with 202 and refuses a 200
with the body as error; Mandrill accepts with 200 and refuses a 202 with the
body as error, also for a message that has a merge variable `json.Marshal`
rejects (on which SendGrid sends nothing). -/
theorem provider_status_check_witness :
    (sendgrid.MailSender.Send (constantNet 202 "")
        { Host := sendgrid.apiHost, APIKey := "SG.key", DefaultEmailCategories := "" }
        sampleEmail).result = none ∧
    (sendgrid.MailSender.Send (constantNet 200 "unexpected")
        { Host := sendgrid.apiHost, APIKey := "SG.key", DefaultEmailCategories := "" }
        sampleEmail).result = some (GoError.errorsNew "unexpected") ∧
    (mandrill.MailSender.Send sampleLib (constantNet 200 "")
        { Host := "https://mandrillapp.com", APIKey := "MD.key" } unmarshalableEmail).result
      = none ∧
    (mandrill.MailSender.Send sampleLib (constantNet 202 "queued")
        { Host := "https://mandrillapp.com", APIKey := "MD.key" } unmarshalableEmail).result
      = some (GoError.errorsNew "queued") ∧
    (sendgrid.MailSender.Send (constantNet 202 "")
        { Host := sendgrid.apiHost, APIKey := "SG.key", DefaultEmailCategories := "" }
        unmarshalableEmail).trace = [] := by
  have h1 := provider_status_check sampleLib (constantNet 202 "")
    { Host := sendgrid.apiHost, APIKey := "SG.key", DefaultEmailCategories := "" }
    { Host := "https://mandrillapp.com", APIKey := "MD.key" } sampleEmail
  have h2 := provider_status_check sampleLib (constantNet 200 "unexpected")
    { Host := sendgrid.apiHost, APIKey := "SG.key", DefaultEmailCategories := "" }
    { Host := "https://mandrillapp.com", APIKey := "MD.key" } sampleEmail
  have h3 := provider_status_check sampleLib (constantNet 200 "")
    { Host := sendgrid.apiHost, APIKey := "SG.key", DefaultEmailCategories := "" }
    { Host := "https://mandrillapp.com", APIKey := "MD.key" } unmarshalableEmail
  have h4 := provider_status_check sampleLib (constantNet 202 "queued")
    { Host := sendgrid.apiHost, APIKey := "SG.key", DefaultEmailCategories := "" }
    { Host := "https://mandrillapp.com", APIKey := "MD.key" } unmarshalableEmail
  have h5 := provider_status_check sampleLib (constantNet 202 "")
    { Host := sendgrid.apiHost, APIKey := "SG.key", DefaultEmailCategories := "" }
    { Host := "https://mandrillapp.com", APIKey := "MD.key" } unmarshalableEmail
  exact ⟨(h1.1 _ 202 (Except.ok "") rfl rfl).1.mpr rfl,
    (h2.1 _ 200 (Except.ok "unexpected") rfl rfl).2 "unexpected" (by decide) rfl,
    (h3.2.2 200 (Except.ok "") rfl).1.mpr rfl,
    (h4.2.2 202 (Except.ok "queued") rfl).2 "queued" (by decide) rfl,
    h5.2.1 "json: unsupported type: chan int" rfl⟩

/-! ## C12: the SMTP message -/

/-- C12.  For every message whose merge variables serialize (to the document
`mergeVars`), `SMTPMailSender.Send` hands exactly one submission to
`smtp.SendMail`, and its message text is the concatenation of the lines
`Return-Path`, `From`, `To`, `MIME-Version`, `Content-Type`,
`Content-Transfer-Encoding`, each written `Key: value\r\n`, followed by the
lines `X-MC-Template` (the template) and `X-MC-MergeVars` (the JSON text of the
merge variables) if and only if `XMCTemplate` is non-empty, followed by the
line `Reply-To` if and only if `ReplyTo` is non-empty; the keys written are
those of that list, each at most once. -/
theorem smtp_message_headers (lib : Lib) (net : Net) (e : mandrill.SMTPMailSender)
    (emailData : EmailData) (mergeVars : JSON)
    (hser : marshalMergeVars emailData.XMCMergeVars = Except.ok mergeVars) :
    ∃ sub, (e.Send lib net emailData).trace = [Event.smtpSendMail sub] ∧
      sub.msg =
        mandrill.headerLine "Return-Path" emailData.From
        ++ mandrill.headerLine "From" (lib.addressString emailData.FromName emailData.From)
        ++ mandrill.headerLine "To" (lib.addressString "" emailData.To)
        ++ mandrill.headerLine "MIME-Version" "1.0"
        ++ mandrill.headerLine "Content-Type" "text/plain; charset=\"utf-8\""
        ++ mandrill.headerLine "Content-Transfer-Encoding" "base64"
        ++ (if emailData.XMCTemplate ≠ "" then
              mandrill.headerLine "X-MC-Template" emailData.XMCTemplate
              ++ mandrill.headerLine "X-MC-MergeVars" (lib.jsonText mergeVars)
            else "")
        ++ (if emailData.ReplyTo ≠ "" then
              mandrill.headerLine "Reply-To" (lib.addressString "" emailData.ReplyTo)
            else "") ∧
      mandrill.headerKeysOf emailData =
        ["Return-Path", "From", "To", "MIME-Version", "Content-Type",
          "Content-Transfer-Encoding"]
        ++ (if emailData.XMCTemplate ≠ "" then ["X-MC-Template", "X-MC-MergeVars"] else [])
        ++ (if emailData.ReplyTo ≠ "" then ["Reply-To"] else []) ∧
      (mandrill.headerKeysOf emailData).Nodup := by
  have hmsg : mandrill.messageOf (mandrill.headerKeysOf emailData)
      (mandrill.headerOf lib emailData (lib.jsonText mergeVars)) =
        mandrill.headerLine "Return-Path" emailData.From
        ++ mandrill.headerLine "From" (lib.addressString emailData.FromName emailData.From)
        ++ mandrill.headerLine "To" (lib.addressString "" emailData.To)
        ++ mandrill.headerLine "MIME-Version" "1.0"
        ++ mandrill.headerLine "Content-Type" "text/plain; charset=\"utf-8\""
        ++ mandrill.headerLine "Content-Transfer-Encoding" "base64"
        ++ (if emailData.XMCTemplate ≠ "" then
              mandrill.headerLine "X-MC-Template" emailData.XMCTemplate
              ++ mandrill.headerLine "X-MC-MergeVars" (lib.jsonText mergeVars)
            else "")
        ++ (if emailData.ReplyTo ≠ "" then
              mandrill.headerLine "Reply-To" (lib.addressString "" emailData.ReplyTo)
            else "") := by
    have hfold : ∀ (keys : List String) (header : GoMap String),
        mandrill.messageOf keys header
          = keys.foldl (fun msg key => msg ++ mandrill.headerLine key ((header.get key).getD ""))
              "" := fun _ _ => rfl
    rw [hfold]
    by_cases h1 : emailData.XMCTemplate = "" <;> by_cases h2 : emailData.ReplyTo = "" <;>
      simp [mandrill.headerKeysOf, mandrill.headerOf, GoMap.set, GoMap.get, h1, h2,
        String.append_assoc]
  have hkeys : mandrill.headerKeysOf emailData =
      ["Return-Path", "From", "To", "MIME-Version", "Content-Type",
        "Content-Transfer-Encoding"]
      ++ (if emailData.XMCTemplate ≠ "" then ["X-MC-Template", "X-MC-MergeVars"] else [])
      ++ (if emailData.ReplyTo ≠ "" then ["Reply-To"] else []) := by
    by_cases h1 : emailData.XMCTemplate = "" <;> by_cases h2 : emailData.ReplyTo = "" <;>
      simp [mandrill.headerKeysOf, h1, h2]
  have hnodup : (mandrill.headerKeysOf emailData).Nodup := by
    rw [hkeys]
    by_cases h1 : emailData.XMCTemplate = "" <;> by_cases h2 : emailData.ReplyTo = "" <;>
      simp [h1, h2]
  refine ⟨{ addr := e.Host ++ ":" ++ toString e.Port
            username := e.Username
            password := e.Password
            host := e.Host
            sender := emailData.From
            recipients := [emailData.To]
            msg := mandrill.messageOf (mandrill.headerKeysOf emailData)
              (mandrill.headerOf lib emailData (lib.jsonText mergeVars)) },
    ?_, hmsg, hkeys, hnodup⟩
  unfold mandrill.SMTPMailSender.Send
  simp only [hser]
  split <;> rfl

/-- C12 at a concrete input: a message from `a@b.com` to `x@y.com` with the
template `welcome`, the merge variable `name = "Ann"` and no reply-to address,
with a JSON writer that renders every document as `DOC`. -/
theorem smtp_message_headers_witness :
    ∃ sub, (mandrill.SMTPMailSender.Send smtpLib servingNet
        { Host := "smtp.mandrillapp.com", Port := 587, Username := "u", Password := "p" }
        smtpEmail).trace = [Event.smtpSendMail sub] ∧
      sub.msg = "Return-Path: a@b.com\r\nFrom: \"Acme\" <a@b.com>\r\nTo: <x@y.com>\r\n"
        ++ "MIME-Version: 1.0\r\nContent-Type: text/plain; charset=\"utf-8\"\r\n"
        ++ "Content-Transfer-Encoding: base64\r\nX-MC-Template: welcome\r\n"
        ++ "X-MC-MergeVars: DOC\r\n" := by
  obtain ⟨sub, htrace, hmsg, _, _⟩ := smtp_message_headers smtpLib servingNet
    { Host := "smtp.mandrillapp.com", Port := 587, Username := "u", Password := "p" }
    smtpEmail (JSON.obj [("name", JSON.str "Ann")]) rfl
  refine ⟨sub, htrace, ?_⟩
  rw [hmsg]
  rfl

/-! ## C13: the provider client of the resolved sender -/

/-- Every entry of a cache written only by `getSenderPlatform` holds, under
its key, the SendGrid client made for that key. -/
theorem populated_entries (c : Cache SenderPlatform) (h : PopulatedByGetSenderPlatform c) :
    ∀ k item, c.items.get k = some item → item.Object = sendgrid.NewSendGridClient k "" := by
  induction h with
  | fresh d ci =>
    intro k item hget
    simp [Cache.New, GoMap.get] at hget
  | call e tGet tSet apiKey _ ih =>
    intro k item hget
    unfold ConfigServiceEmailSender.getSenderPlatform at hget
    split at hget
    · exact ih k item hget
    · simp only [Cache.Set] at hget
      by_cases hk : apiKey = k
      · subst hk
        rw [GoMap.get_set_self] at hget
        simp only [Option.some.injEq] at hget
        rw [← hget]
      · rw [GoMap.get_set_ne _ _ _ _ hk] at hget
        exact ih k item hget

theorem Cache.Get_object {α : Type} (c : Cache α) (now : Int) (k : String) (x : α)
    (h : c.Get now k = some x) : ∃ item, c.items.get k = some item ∧ item.Object = x := by
  unfold Cache.Get at h
  split at h
  · simp at h
  · rename_i item hitem
    refine ⟨item, hitem, ?_⟩
    split at h
    · split at h
      · simp at h
      · simpa using h
    · simpa using h

/-- The errors `fetchEmailSenderConfiguration` returns are `ErrNotFound`,
values of `errors.New` and library errors. -/
theorem fetch_error_kinds (lib : Lib) (net : Net) (e : APIProxy) (ctx : Context)
    (tenant : String) (err : GoError)
    (h : (e.fetchEmailSenderConfiguration lib net ctx tenant).outcome
      = Exec.done (Except.error err)) :
    err = GoError.ErrNotFound ∨ (∃ msg, err = GoError.errorsNew msg) ∨
      ∃ msg, err = GoError.library msg := by
  unfold APIProxy.fetchEmailSenderConfiguration getAccessTokenFromContext at h
  cases htok : ctx.ServiceAccessToken with
  | nil =>
    simp only [htok, Exec.done.injEq, Except.error.injEq] at h
    exact Or.inr (Or.inl ⟨_, h.symm⟩)
  | str accessToken =>
    by_cases hne : accessToken = ""
    · simp only [htok, hne, if_true, Exec.done.injEq, Except.error.injEq] at h
      exact Or.inr (Or.inl ⟨_, h.symm⟩)
    · simp only [htok, hne, if_false] at h
      split at h
      · simp only [Exec.done.injEq, Except.error.injEq] at h
        exact Or.inr (Or.inr ⟨_, h.symm⟩)
      · simp only [Exec.done.injEq, Except.error.injEq] at h
        exact Or.inr (Or.inr ⟨_, h.symm⟩)
      · simp only [Exec.done.injEq, Except.error.injEq] at h
        exact Or.inr (Or.inl ⟨_, h.symm⟩)
      · simp only [Exec.done.injEq] at h
        repeat' split at h
        all_goals first
          | (simp only [Except.error.injEq] at h
             subst h
             simp)
          | simp at h
  | int n => simp [htok] at h
  | bool b => simp [htok] at h
  | other j t => simp [htok] at h

/-- The errors `GetEmailSenderConfiguration` returns are values of
`errors.New` and library errors. -/
theorem get_error_kinds (lib : Lib) (net : Net) (e : APIProxy) (ctx : Context)
    (tenant : String) (tGet tSet : Int) (x : Option EmailSenderConfiguration) (err : GoError)
    (h : (e.GetEmailSenderConfiguration lib net tGet tSet ctx tenant).outcome
      = Exec.done (x, some err)) :
    (∃ msg, err = GoError.errorsNew msg) ∨ ∃ msg, err = GoError.library msg := by
  cases hhit : e.Cache.Get tGet tenant with
  | some cfg =>
    rw [get_of_hit lib net e ctx tenant tGet tSet cfg hhit] at h
    simp at h
  | none =>
    have hmiss := get_of_miss lib net e ctx tenant tGet tSet hhit
    cases hf : (e.fetchEmailSenderConfiguration lib net ctx tenant).outcome with
    | panicked r =>
      rw [(hmiss.2.1 r hf).1] at h
      simp at h
    | done res =>
      cases res with
      | ok cfg =>
        rw [(hmiss.2.2 cfg hf).1] at h
        simp at h
      | error err' =>
        rw [(hmiss.1 err' hf).1] at h
        by_cases hnf : err' = GoError.ErrNotFound
        · simp [hnf] at h
        · simp only [hnf, if_false, Exec.done.injEq, Prod.mk.injEq, Option.some.injEq] at h
          rcases fetch_error_kinds lib net e ctx tenant err' hf with h1 | h1 | h1
          · exact absurd h1 hnf
          · rw [← h.2]
            exact Or.inl h1
          · rw [← h.2]
            exact Or.inr h1

/-- The errors `Send` of a provider client returns are values of `errors.New`
and library errors. -/
theorem send_error_kinds (lib : Lib) (net : Net) (sp : SenderPlatform) (d : EmailData)
    (err : GoError) (h : (sp.Send lib net d).result = some err) :
    (∃ msg, err = GoError.errorsNew msg) ∨ ∃ msg, err = GoError.library msg := by
  cases sp with
  | sendgrid c =>
    simp only [SenderPlatform.Send, sendgrid.MailSender.Send] at h
    repeat' split at h
    all_goals first
      | (simp only [Option.some.injEq] at h
         subst h
         simp)
      | simp at h
  | mandrill c =>
    simp only [SenderPlatform.Send, mandrill.MailSender.Send] at h
    repeat' split at h
    all_goals first
      | (simp only [Option.some.injEq] at h
         subst h
         simp)
      | simp at h
  | mandrillSMTP c =>
    simp only [SenderPlatform.Send, mandrill.SMTPMailSender.Send] at h
    repeat' split at h
    all_goals first
      | (simp only [Option.some.injEq] at h
         subst h
         simp)
      | simp at h

/-- `SendEmail` never returns `ErrSenderPlatformNotExist`. -/
theorem sendEmail_never_not_exist (K : Constants) (lib : Lib) (net : Net) (clk : Clock)
    (e : ConfigServiceEmailSender) (ctx : Context) (emailData : EmailData) :
    (e.SendEmail K lib net clk ctx emailData).outcome
      ≠ Exec.done (some GoError.ErrSenderPlatformNotExist) := by
  by_cases hns : emailData.Namespace = ""
  · unfold ConfigServiceEmailSender.SendEmail
    simp [hns]
  · cases hg : (e.ConfigServiceProxy.GetEmailSenderConfiguration lib net clk.configGet
        clk.configSet ctx emailData.Namespace).outcome with
    | panicked r =>
      unfold ConfigServiceEmailSender.SendEmail
      simp [hns, hg]
    | done res =>
      obtain ⟨cfg, oerr⟩ := res
      cases oerr with
      | some err =>
        have hk := get_error_kinds lib net e.ConfigServiceProxy ctx emailData.Namespace
          clk.configGet clk.configSet cfg err hg
        unfold ConfigServiceEmailSender.SendEmail
        simp only [hns, if_false, hg]
        rcases hk with ⟨msg, rfl⟩ | ⟨msg, rfl⟩ <;> simp
      | none =>
        cases cfg with
        | none =>
          unfold ConfigServiceEmailSender.SendEmail
          simp [hns, hg]
        | some cfg =>
          by_cases hver : cfg.IsDomainAuthenticated = true
          · have hcore := sendEmail_verified K lib net clk e ctx emailData cfg hns hg hver
            cases hlook : (if emailData.XMCTemplate ≠ "" then
                cfg.GetEmailTemplate emailData.XMCTemplate else Exec.done none) with
            | panicked r =>
              rw [(hcore.1 r hlook).1]
              simp
            | done found =>
              cases hset : emailData.SetTemplateAdditionalData K clk.year with
              | panicked r =>
                rw [((hcore.2 found hlook).1 r hset).1]
                simp
              | done d0 =>
                obtain ⟨sp, d, _, _, hout⟩ := (hcore.2 found hlook).2 d0 hset
                rw [hout]
                intro h
                simp only [Exec.done.injEq] at h
                rcases send_error_kinds lib net sp d _ h with ⟨msg, hm⟩ | ⟨msg, hm⟩ <;>
                  simp at hm
          · unfold ConfigServiceEmailSender.SendEmail
            simp [hns, hg, hver]

/-- C13.  For every API key, the empty string included, and every state of
`SenderPlatformCache` that only `getSenderPlatform` has written to:
`getSenderPlatform` returns a non-nil client, the SendGrid client with the
default host, the given key as `APIKey` and empty default categories; on a
miss it stores that client under the key, on a hit it changes nothing; the
state it leaves is again one that only `getSenderPlatform` has written to; and
`SendEmail` never returns `ErrSenderPlatformNotExist`, whatever the message,
the context, the network and the clock. -/
theorem provider_client_resolution (e : ConfigServiceEmailSender) (apiKey : String)
    (tGet tSet : Int) (hpop : PopulatedByGetSenderPlatform e.SenderPlatformCache) :
    (e.getSenderPlatform tGet tSet apiKey).1 = some (SenderPlatform.sendgrid
      { Host := sendgrid.apiHost, APIKey := apiKey, DefaultEmailCategories := "" }) ∧
    (e.SenderPlatformCache.Get tGet apiKey = none →
      ∃ item, (e.getSenderPlatform tGet tSet apiKey).2.SenderPlatformCache.items.get apiKey
          = some item ∧
        item.Object = SenderPlatform.sendgrid
          { Host := sendgrid.apiHost, APIKey := apiKey, DefaultEmailCategories := "" }) ∧
    (∀ sp, e.SenderPlatformCache.Get tGet apiKey = some sp →
      (e.getSenderPlatform tGet tSet apiKey).2 = e) ∧
    PopulatedByGetSenderPlatform (e.getSenderPlatform tGet tSet apiKey).2.SenderPlatformCache ∧
    (∀ (K : Constants) (lib : Lib) (net : Net) (clk : Clock) (ctx : Context)
        (emailData : EmailData),
      (e.SendEmail K lib net clk ctx emailData).outcome
        ≠ Exec.done (some GoError.ErrSenderPlatformNotExist)) := by
  refine ⟨?_, ?_, ?_, PopulatedByGetSenderPlatform.call e tGet tSet apiKey hpop,
    fun K lib net clk ctx emailData => sendEmail_never_not_exist K lib net clk e ctx emailData⟩
  · cases hget : e.SenderPlatformCache.Get tGet apiKey with
    | none =>
      unfold ConfigServiceEmailSender.getSenderPlatform
      rw [hget]
      rfl
    | some sp =>
      obtain ⟨item, hitem, hobj⟩ := Cache.Get_object _ _ _ _ hget
      have := populated_entries _ hpop apiKey item hitem
      unfold ConfigServiceEmailSender.getSenderPlatform
      rw [hget]
      simp only []
      rw [← hobj, this]
      rfl
  · intro hget
    unfold ConfigServiceEmailSender.getSenderPlatform
    rw [hget]
    simp only [Cache.Set, GoMap.get_set_self]
    exact ⟨_, rfl, rfl⟩
  · intro sp hget
    unfold ConfigServiceEmailSender.getSenderPlatform
    rw [hget]

/-- C13 at a concrete input: on the fresh sender the empty API key gives a
SendGrid client with an empty key, and a second call one second later, on the
state the first call left, gives the same client and changes nothing. -/
theorem provider_client_resolution_witness :
    (sampleSender.getSenderPlatform 1700000000000000000 1700000000000000001 "").1
      = some (SenderPlatform.sendgrid
          { Host := "https://api.sendgrid.com", APIKey := "", DefaultEmailCategories := "" }) ∧
    ((sampleSender.getSenderPlatform 1700000000000000000 1700000000000000001 "").2.getSenderPlatform
        1700000001000000000 1700000001000000001 "").1
      = some (SenderPlatform.sendgrid
          { Host := "https://api.sendgrid.com", APIKey := "", DefaultEmailCategories := "" }) ∧
    ((sampleSender.getSenderPlatform 1700000000000000000 1700000000000000001 "").2.getSenderPlatform
        1700000001000000000 1700000001000000001 "").2
      = (sampleSender.getSenderPlatform 1700000000000000000 1700000000000000001 "").2 := by
  have h1 := provider_client_resolution sampleSender "" 1700000000000000000 1700000000000000001
    (PopulatedByGetSenderPlatform.fresh 60000000000 120000000000)
  have h2 := provider_client_resolution
    (sampleSender.getSenderPlatform 1700000000000000000 1700000000000000001 "").2 ""
    1700000001000000000 1700000001000000001 h1.2.2.2.1
  exact ⟨h1.1, h2.1, h2.2.2.1 _ rfl⟩

/-! ## C14: what a failed fetch leaves in the cache -/

/-- A miss stays a miss while the clock does not run backwards and the cache
is not written to. -/
theorem Cache.Get_none_later {α : Type} (c : Cache α) (t1 t2 : Int) (k : String)
    (h : c.Get t1 k = none) (hle : t1 ≤ t2) : c.Get t2 k = none := by
  unfold Cache.Get at h ⊢
  cases hitem : c.items.get k with
  | none => rfl
  | some item =>
    simp only [hitem] at h ⊢
    by_cases hpos : 0 < item.Expiration
    · simp only [hpos, if_true] at h ⊢
      by_cases hexp : item.Expiration < t1
      · have : item.Expiration < t2 := by omega
        simp [this]
      · simp [hexp] at h
    · simp [hpos] at h

/-- The four kinds of failed fetch named by C14 all end in an error: a
context without token, a transport failure, a readable answer with a status
other than 200, and an answer 200 whose body does not decode. -/
theorem fetch_failure_kinds (lib : Lib) (net : Net) (e : APIProxy) (ctx : Context)
    (tenant : String) :
    (ctx.ServiceAccessToken = Value.nil ∨ ctx.ServiceAccessToken = Value.str "" →
      ∃ err, (e.fetchEmailSenderConfiguration lib net ctx tenant).outcome
        = Exec.done (Except.error err)) ∧
    (∀ token, ctx.ServiceAccessToken = Value.str token → token ≠ "" →
      (∀ msg, net.http
          { method := "GET"
            url := getEmailSenderConfigurationPath e.Host tenant
            headers := [("Authorization", "Bearer " ++ token)]
            body := none } = HTTPOutcome.transportError msg →
        ∃ err, (e.fetchEmailSenderConfiguration lib net ctx tenant).outcome
          = Exec.done (Except.error err)) ∧
      (∀ status body, net.http
          { method := "GET"
            url := getEmailSenderConfigurationPath e.Host tenant
            headers := [("Authorization", "Bearer " ++ token)]
            body := none } = HTTPOutcome.response status (Except.ok body) →
        status ≠ 200 →
        ∃ err, (e.fetchEmailSenderConfiguration lib net ctx tenant).outcome
          = Exec.done (Except.error err)) ∧
      (∀ body msg, net.http
          { method := "GET"
            url := getEmailSenderConfigurationPath e.Host tenant
            headers := [("Authorization", "Bearer " ++ token)]
            body := none } = HTTPOutcome.response 200 (Except.ok body) →
        lib.unmarshalEmailSenderConfiguration body = Except.error msg →
        ∃ err, (e.fetchEmailSenderConfiguration lib net ctx tenant).outcome
          = Exec.done (Except.error err))) := by
  refine ⟨?_, ?_⟩
  · rintro (h | h) <;>
    · unfold APIProxy.fetchEmailSenderConfiguration getAccessTokenFromContext
      simp only [h, if_true]
      exact ⟨_, rfl⟩
  · intro token htok hne
    refine ⟨?_, ?_, ?_⟩
    · intro msg hresp
      unfold APIProxy.fetchEmailSenderConfiguration getAccessTokenFromContext
      simp only [htok, hne, if_false, hresp]
      exact ⟨_, rfl⟩
    · intro status body hresp hstatus
      rw [fetch_of_response lib net e ctx tenant token status body htok hne hresp]
      simp only [ne_eq, hstatus, not_false_eq_true, if_true]
      by_cases h404 : status = 404
      · simp only [h404, if_true]
        cases lib.unmarshalErrorEntity body with
        | error _ => exact ⟨_, rfl⟩
        | ok errorEntity =>
          by_cases hc : errorEntity.ErrorCode = 20008
          · simp only [hc, if_true]
            exact ⟨_, rfl⟩
          · simp only [hc, if_false]
            exact ⟨_, rfl⟩
      · simp only [h404, if_false]
        exact ⟨_, rfl⟩
    · intro body msg hresp hdec
      rw [fetch_of_response lib net e ctx tenant token 200 body htok hne hresp]
      simp only [ne_eq, not_true_eq_false, if_false, hdec]
      exact ⟨_, rfl⟩

/-- C14.  On a cache miss: when the remote fetch ends in NotFound or in any
error, `GetEmailSenderConfiguration` returns a nil configuration (with a nil
error for NotFound, with the fetch's error otherwise) and leaves the proxy,
cache included, as it was, so that the next resolution of the same tenant,
reading the clock no earlier, performs a remote fetch again; when the fetch
succeeds, the configuration fetched is the one returned and the one stored
under the tenant; and the proxy changes only after a successful fetch. -/
theorem failed_fetch_stores_nothing (lib : Lib) (net net2 : Net) (e : APIProxy)
    (ctx ctx2 : Context) (tenant : String) (tGet tSet t2 t2' : Int)
    (hmiss : e.Cache.Get tGet tenant = none) :
    (∀ err, (e.fetchEmailSenderConfiguration lib net ctx tenant).outcome
        = Exec.done (Except.error err) →
      (e.GetEmailSenderConfiguration lib net tGet tSet ctx tenant).outcome
        = Exec.done (none, if err = GoError.ErrNotFound then none else some err) ∧
      (e.GetEmailSenderConfiguration lib net tGet tSet ctx tenant).proxy = e ∧
      (tGet ≤ t2 →
        fetchCount ((e.GetEmailSenderConfiguration lib net tGet tSet ctx
          tenant).proxy.GetEmailSenderConfiguration lib net2 t2 t2' ctx2 tenant).trace = 1)) ∧
    (∀ cfg, (e.fetchEmailSenderConfiguration lib net ctx tenant).outcome
        = Exec.done (Except.ok cfg) →
      (e.GetEmailSenderConfiguration lib net tGet tSet ctx tenant).outcome
        = Exec.done (some cfg, none) ∧
      (e.GetEmailSenderConfiguration lib net tGet tSet ctx tenant).proxy
        = { e with Cache := e.Cache.Set tSet tenant cfg 0 } ∧
      ∃ item, (e.GetEmailSenderConfiguration lib net tGet tSet ctx
          tenant).proxy.Cache.items.get tenant = some item ∧ item.Object = cfg) ∧
    ((e.GetEmailSenderConfiguration lib net tGet tSet ctx tenant).proxy ≠ e →
      ∃ cfg, (e.fetchEmailSenderConfiguration lib net ctx tenant).outcome
          = Exec.done (Except.ok cfg) ∧
        (e.GetEmailSenderConfiguration lib net tGet tSet ctx tenant).outcome
          = Exec.done (some cfg, none)) := by
  have hget := get_of_miss lib net e ctx tenant tGet tSet hmiss
  refine ⟨?_, ?_, ?_⟩
  · intro err herr
    obtain ⟨hout, hproxy⟩ := hget.1 err herr
    refine ⟨hout, hproxy, ?_⟩
    intro hle
    rw [hproxy]
    exact get_fetchCount_miss lib net2 e ctx2 tenant t2 t2'
      (Cache.Get_none_later e.Cache tGet t2 tenant hmiss hle)
  · intro cfg hcfg
    obtain ⟨hout, hproxy⟩ := hget.2.2 cfg hcfg
    refine ⟨hout, hproxy, ?_⟩
    rw [hproxy]
    simp only [Cache.Set, GoMap.get_set_self]
    exact ⟨_, rfl, rfl⟩
  · intro hne
    cases hf : (e.fetchEmailSenderConfiguration lib net ctx tenant).outcome with
    | panicked r => exact absurd (hget.2.1 r hf).2 hne
    | done res =>
      cases res with
      | error err => exact absurd (hget.1 err hf).2 hne
      | ok cfg => exact ⟨cfg, rfl, (hget.2.2 cfg hf).1⟩

/-- C14 at concrete failures on a fresh proxy: a context without token, a
service that cannot be reached, an answer 500, an answer 200 that is not a
configuration, and the NotFound answer.  Each time the proxy is as before and
a resolution one second later fetches again. -/
theorem failed_fetch_stores_nothing_witness :
    fetchCount (((NewConfigServiceProxy "h" 60).GetEmailSenderConfiguration sampleLib servingNet
        1700000000000000000 1700000000200000000 { ServiceAccessToken := Value.nil }
        "acme").proxy.GetEmailSenderConfiguration sampleLib servingNet 1700000001000000000
        1700000001200000000 sampleContext "acme").trace = 1 ∧
    fetchCount (((NewConfigServiceProxy "h" 60).GetEmailSenderConfiguration sampleLib
        unreachableNet 1700000000000000000 1700000000200000000 sampleContext
        "acme").proxy.GetEmailSenderConfiguration sampleLib servingNet 1700000001000000000
        1700000001200000000 sampleContext "acme").trace = 1 ∧
    fetchCount (((NewConfigServiceProxy "h" 60).GetEmailSenderConfiguration sampleLib
        (constantNet 500 "internal error") 1700000000000000000 1700000000200000000 sampleContext
        "acme").proxy.GetEmailSenderConfiguration sampleLib servingNet 1700000001000000000
        1700000001200000000 sampleContext "acme").trace = 1 ∧
    fetchCount (((NewConfigServiceProxy "h" 60).GetEmailSenderConfiguration sampleLib
        (constantNet 200 "<html></html>") 1700000000000000000 1700000000200000000 sampleContext
        "acme").proxy.GetEmailSenderConfiguration sampleLib servingNet 1700000001000000000
        1700000001200000000 sampleContext "acme").trace = 1 ∧
    ((NewConfigServiceProxy "h" 60).GetEmailSenderConfiguration sampleLib
        (constantNet 404 notFoundBody) 1700000000000000000 1700000000200000000 sampleContext
        "acme").proxy = NewConfigServiceProxy "h" 60 := by
  refine ⟨?_, ?_, ?_, ?_, ?_⟩
  · exact ((failed_fetch_stores_nothing sampleLib servingNet servingNet
      (NewConfigServiceProxy "h" 60) { ServiceAccessToken := Value.nil } sampleContext "acme"
      1700000000000000000 1700000000200000000 1700000001000000000 1700000001200000000
      rfl).1 _ rfl).2.2 (by decide)
  · exact ((failed_fetch_stores_nothing sampleLib unreachableNet servingNet
      (NewConfigServiceProxy "h" 60) sampleContext sampleContext "acme"
      1700000000000000000 1700000000200000000 1700000001000000000 1700000001200000000
      rfl).1 _ rfl).2.2 (by decide)
  · exact ((failed_fetch_stores_nothing sampleLib (constantNet 500 "internal error") servingNet
      (NewConfigServiceProxy "h" 60) sampleContext sampleContext "acme"
      1700000000000000000 1700000000200000000 1700000001000000000 1700000001200000000
      rfl).1 _ rfl).2.2 (by decide)
  · exact ((failed_fetch_stores_nothing sampleLib (constantNet 200 "<html></html>") servingNet
      (NewConfigServiceProxy "h" 60) sampleContext sampleContext "acme"
      1700000000000000000 1700000000200000000 1700000001000000000 1700000001200000000
      rfl).1 _ rfl).2.2 (by decide)
  · exact ((failed_fetch_stores_nothing sampleLib (constantNet 404 notFoundBody) servingNet
      (NewConfigServiceProxy "h" 60) sampleContext sampleContext "acme"
      1700000000000000000 1700000000200000000 1700000001000000000 1700000001200000000
      rfl).1 _ rfl).2.1

/-! ## C15: the language tag -/

/-- `SetTemplateAdditionalData` in terms of the caller's map, when the two
keys are different names: with `m1` the caller's map after the injection of
the year, the language tag read from `m1` is the caller's. -/
theorem setTemplate_by_language (K : Constants) (year : Int) (d : EmailData)
    (hK : K.CopyrightYearTemplateKey ≠ K.LanguageTagTemplateKey) :
    ∃ m1 : GoMap Value,
      (∀ v, (d.XMCMergeVars.getD []).get K.CopyrightYearTemplateKey = some v →
        m1 = d.XMCMergeVars.getD []) ∧
      ((d.XMCMergeVars.getD []).get K.CopyrightYearTemplateKey = none →
        m1 = (d.XMCMergeVars.getD []).set K.CopyrightYearTemplateKey (Value.int year)) ∧
      d.SetTemplateAdditionalData K year =
        match ((d.XMCMergeVars.getD []).get K.LanguageTagTemplateKey).getD Value.nil with
        | Value.nil => Exec.done { d with XMCMergeVars := some m1 }
        | Value.str language =>
          if language ≠ "" then
            Exec.done { d with XMCMergeVars := some (m1.set language (Value.bool true)) }
          else Exec.done { d with XMCMergeVars := some m1 }
        | _ => Exec.panicked "interface conversion: interface {} is not string" := by
  have hm0 : (match d.XMCMergeVars with
      | none => []
      | some m => m) = d.XMCMergeVars.getD [] := by
    cases d.XMCMergeVars <;> rfl
  obtain ⟨m1, hm1, hpres, habs, _⟩ :=
    year_injected K.CopyrightYearTemplateKey year (d.XMCMergeVars.getD [])
  refine ⟨m1, hpres, habs, ?_⟩
  have hlang : m1.get K.LanguageTagTemplateKey
      = (d.XMCMergeVars.getD []).get K.LanguageTagTemplateKey := by
    cases hck : (d.XMCMergeVars.getD []).get K.CopyrightYearTemplateKey with
    | some v => rw [hpres v hck]
    | none => rw [habs hck, GoMap.get_set_ne _ _ _ _ hK]
  unfold EmailData.SetTemplateAdditionalData
  simp only [hm0, hm1, hlang]

/-- C15.  With the copyright-year key and the language-tag key two different
names: `SetTemplateAdditionalData` panics (failed type assertion) exactly when
the merge variables hold, under the language-tag key, a value that is neither
nil nor a string; for every other message it completes.  With `m1` the
caller's map after the injection of the year (the caller's map itself when it
already has a copyright year, the nil map counting as empty): when the
language tag is absent, nil or the empty string the result holds `m1`, nothing
else being added; when it is a non-empty string `L` the result holds `m1` with
`L` set to `true`, which replaces whatever was under `L`, the copyright-year
entry included when `L` is the copyright-year key. -/
theorem language_tag_assertion (K : Constants) (year : Int) (d : EmailData)
    (hK : K.CopyrightYearTemplateKey ≠ K.LanguageTagTemplateKey) :
    ((∃ r, d.SetTemplateAdditionalData K year = Exec.panicked r) ↔
      ∃ v, (d.XMCMergeVars.getD []).get K.LanguageTagTemplateKey = some v ∧
        v ≠ Value.nil ∧ ∀ s, v ≠ Value.str s) ∧
    ((∃ d', d.SetTemplateAdditionalData K year = Exec.done d') ↔
      ¬ ∃ v, (d.XMCMergeVars.getD []).get K.LanguageTagTemplateKey = some v ∧
        v ≠ Value.nil ∧ ∀ s, v ≠ Value.str s) ∧
    ∃ m1 : GoMap Value,
      (∀ v, (d.XMCMergeVars.getD []).get K.CopyrightYearTemplateKey = some v →
        m1 = d.XMCMergeVars.getD []) ∧
      ((d.XMCMergeVars.getD []).get K.CopyrightYearTemplateKey = none →
        m1 = (d.XMCMergeVars.getD []).set K.CopyrightYearTemplateKey (Value.int year)) ∧
      ((d.XMCMergeVars.getD []).get K.LanguageTagTemplateKey = none ∨
        (d.XMCMergeVars.getD []).get K.LanguageTagTemplateKey = some Value.nil ∨
        (d.XMCMergeVars.getD []).get K.LanguageTagTemplateKey = some (Value.str "") →
        d.SetTemplateAdditionalData K year = Exec.done { d with XMCMergeVars := some m1 }) ∧
      (∀ L, L ≠ "" →
        (d.XMCMergeVars.getD []).get K.LanguageTagTemplateKey = some (Value.str L) →
        d.SetTemplateAdditionalData K year
          = Exec.done { d with XMCMergeVars := some (m1.set L (Value.bool true)) } ∧
        (m1.set L (Value.bool true)).get L = some (Value.bool true) ∧
        (∀ k, k ≠ L → (m1.set L (Value.bool true)).get k = m1.get k) ∧
        (L = K.CopyrightYearTemplateKey →
          (m1.set L (Value.bool true)).get K.CopyrightYearTemplateKey
            = some (Value.bool true))) := by
  obtain ⟨m1, hpres, habs, hset⟩ := setTemplate_by_language K year d hK
  refine ⟨?_, ?_, m1, hpres, habs, ?_, ?_⟩
  · rw [hset]
    cases hl : (d.XMCMergeVars.getD []).get K.LanguageTagTemplateKey with
    | none => simp
    | some v =>
      cases v with
      | nil => simp
      | str L => by_cases hL : L = "" <;> simp [hL]
      | int n => simp
      | bool b => simp
      | other j t => simp
  · rw [hset]
    cases hl : (d.XMCMergeVars.getD []).get K.LanguageTagTemplateKey with
    | none => simp
    | some v =>
      cases v with
      | nil => simp
      | str L => by_cases hL : L = "" <;> simp [hL]
      | int n => simp
      | bool b => simp
      | other j t => simp
  · intro h
    rw [hset]
    rcases h with h | h | h <;> simp [h]
  · intro L hL hl
    refine ⟨?_, GoMap.get_set_self _ _ _, ?_, ?_⟩
    · rw [hset]
      simp [hl, hL]
    · intro k hk
      exact GoMap.get_set_ne _ _ _ _ (fun h => hk h.symm)
    · intro hck
      rw [← hck]
      exact GoMap.get_set_self _ _ _

/-- C15 at concrete inputs (keys `copyrightYear` and `languageTag`, year
2023): with the language tag `en` the result holds the caller's entry, the
year and `en = true`; with the number 5 as language tag the call panics. -/
theorem language_tag_assertion_witness :
    EmailData.SetTemplateAdditionalData sampleConstants 2023
        (emailWithVars [("languageTag", Value.str "en")])
      = Exec.done (emailWithVars [("languageTag", Value.str "en"),
          ("copyrightYear", Value.int 2023), ("en", Value.bool true)]) ∧
    ∃ r, EmailData.SetTemplateAdditionalData sampleConstants 2023
        (emailWithVars [("languageTag", Value.int 5)]) = Exec.panicked r := by
  constructor
  · obtain ⟨_, _, m1, _, habs, _, hstr⟩ := language_tag_assertion sampleConstants 2023
      (emailWithVars [("languageTag", Value.str "en")]) (by decide)
    have hm1 := habs rfl
    subst hm1
    exact (hstr "en" (by decide) rfl).1
  · exact (language_tag_assertion sampleConstants 2023
      (emailWithVars [("languageTag", Value.int 5)]) (by decide)).1.mpr
      ⟨Value.int 5, rfl, (fun h => by cases h), (fun s h => by cases h)⟩

end EmailSender
